import Mathlib

/-!
Verification of incus-kube, a Pulumi program provisioning three Incus VMs and a K3s cluster

Shallow embedding of `incus.go`, `kube.go` and `main.go`.

* A resource handle is its kind together with its logical name.
* A `pulumi` output is a symbolic expression (`Output`): a known string, an
  attribute of a resource that the engine resolves later, or `pulumi.Sprintf`
  applied to outputs.  `Output.resolve` evaluates it once the attributes are
  known.
* `*pulumi.Context` is threaded explicitly (`Context`): the resources
  registered so far and the stack exports, both in program order.
* Everything the program cannot decide itself is a field of `World`: the
  contents of files, whether the engine accepts a registration, and the
  pointer the provider constructor hands back next to an error.
* Dereferencing a nil pointer is an explicit `Outcome.panic`.
-/

set_option autoImplicit false

namespace IncusKube

/-! ## Data model -/

/-- Go's `error` values. -/
abbrev Error := String

/-- Resource types used by the program. -/
inductive Kind where
  | storagePool
  | network
  | localCommand
  | inst
  | remoteCommand
  | provider
  | deployment
  deriving DecidableEq

/-- A resource handle: resource type and logical name (the second argument of every constructor). -/
structure Resource where
  kind : Kind
  name : String
  deriving DecidableEq

/-- Symbolic `pulumi` outputs: `pulumi.String`, an output attribute of a resource, `pulumi.Sprintf`. -/
inductive Output where
  | str : String → Output
  | attr : Resource → String → Output
  | sprintf : String → List Output → Output

/-- Arguments `remote.ConnectionArgs`. -/
structure Connection where
  host : Output
  user : Output
  privateKey : Output
  dialErrorLimit : Option Int := none

/-- Arguments `incus.InstanceDeviceArgs`. -/
structure Device where
  name : Output
  type : Output
  properties : List (String × Output)

/-- Arguments of the resource constructors, one alternative per resource type. -/
inductive Args where
  | storagePool (name driver : Output)
  | network (name type : Output) (config : List (String × Output))
  | localCommand (create delete : Output)
  | inst (name image type : Output) (ephemeral : Bool) (devices : List Device)
      (config : List (String × Output))
  | remoteCommand (connection : Connection) (create : Output)
  | provider (kubeconfig : Output)

/-- One constructor call: the handle it creates, its arguments, its `pulumi.DependsOn` option. -/
structure Decl where
  res : Resource
  args : Args
  dependsOn : List Resource := []

/-- The state behind `*pulumi.Context`: registered resources and stack exports, in order. -/
structure Context where
  resources : List Decl := []
  exports : List (String × Output) := []

/-- A Go call either returns its value and error, or panics. -/
inductive Outcome (α : Type) where
  | ret : α → Option Error → Outcome α
  | panic : Outcome α

/-- Pointer `*incus.Instance` (non-nil). -/
structure Instance where
  name : String
  deriving DecidableEq

/-- Pointer `*kubernetes.Provider` (non-nil); `&kubernetes.Provider{}` has the empty name. -/
structure Provider where
  name : String := ""
  deriving DecidableEq

/-- Pointer `*appsv1.Deployment` (non-nil). -/
structure Deployment where
  name : String
  deriving DecidableEq

/-- The struct `IncusNodes` of incus.go; a field is `none` for a nil pointer. -/
structure IncusNodes where
  MasterArchNode : Option Instance := none
  WorkerUbuntuNode : Option Instance := none
  WorkerAlmaNode : Option Instance := none
  deriving DecidableEq

/-- What the program does not decide itself. -/
structure World where
  /-- Contents of a file, or the error of `os.ReadFile`. -/
  readFile : String → Except Error String
  /-- Error with which the engine rejects a registration, `none` when it accepts. -/
  register : Decl → Option Error
  /-- Pointer that `kubernetes.NewProvider` returns together with a non-nil error. -/
  failedProvider : Option Provider

/-- An instance as a `pulumi.Resource`. -/
def Instance.res (i : Instance) : Resource := ⟨.inst, i.name⟩

/-- A provider as a `pulumi.Resource`. -/
def Provider.res (p : Provider) : Resource := ⟨.provider, p.name⟩

/-- Output attribute `Ipv4Address` of an instance. -/
def Instance.Ipv4Address (i : Instance) : Output := .attr i.res "ipv4Address"

/-- Output attribute `Name` of a storage pool or network. -/
def Resource.Name (r : Resource) : Output := .attr r "name"

/-- Output attribute `Stdout` of a command. -/
def Resource.Stdout (r : Resource) : Output := .attr r "stdout"

/-- Output `deployment.Metadata.Name()`. -/
def Deployment.MetadataName (d : Deployment) : Output := .attr ⟨.deployment, d.name⟩ "metadata.name"

/-! ## `fmt.Sprintf` on string operands -/

/-- Rendering of surplus operands inside `%!(EXTRA ...)`. -/
def extraOperands : List String → List Char
  | [] => []
  | [a] => "string=".toList ++ a.toList
  | a :: b :: rest => "string=".toList ++ a.toList ++ ", ".toList ++ extraOperands (b :: rest)

/-- Output of `fmt.Sprintf` once the format is exhausted. -/
def atEnd : List String → List Char
  | [] => []
  | a :: rest => "%!(EXTRA ".toList ++ extraOperands (a :: rest) ++ [')']

/-- Go's `fmt.Sprintf` for string operands and the verbs `%s`, `%v` and `%%` without flags.
Text outside a verb is copied, `%s` and `%v` consume the next operand and write it unchanged
(`%!s(MISSING)` when none is left), a lone `%` at the end gives `%!(NOVERB)`, surplus operands
give `%!(EXTRA ...)` at the very end.  Any other verb or flag is outside this fragment: `none`. -/
def doPrintf : List Char → List String → Option (List Char)
  | [], args => some (atEnd args)
  | [c], args =>
    if c = '%' then some ("%!(NOVERB)".toList ++ atEnd args) else some (c :: atEnd args)
  | c :: v :: fs, args =>
    if c = '%' then
      if v = '%' then (doPrintf fs args).map (fun r => '%' :: r)
      else if v = 's' ∨ v = 'v' then
        match args with
        | [] => (doPrintf fs []).map (fun r => ['%', '!', v] ++ "(MISSING)".toList ++ r)
        | a :: rest => (doPrintf fs rest).map (fun r => a.toList ++ r)
      else none
    else (doPrintf (v :: fs) args).map (fun r => c :: r)

/-- The function `fmt.Sprintf`. -/
def Sprintf (format : String) (args : List String) : Option String :=
  (doPrintf format.toList args).map String.mk

mutual
/-- Value of an output once every resource attribute is known (`ρ r a` is attribute `a` of `r`). -/
def Output.resolve (ρ : Resource → String → String) : Output → Option String
  | .str s => some s
  | .attr r a => some (ρ r a)
  | .sprintf format args => (Output.resolveAll ρ args).bind (Sprintf format)
/-- Values of the operands of `pulumi.Sprintf`. -/
def Output.resolveAll (ρ : Resource → String → String) : List Output → Option (List String)
  | [] => some []
  | a :: rest =>
    (Output.resolve ρ a).bind (fun s => (Output.resolveAll ρ rest).map (fun l => s :: l))
end

/-! ## Accessors -/

/-- Argument `Name` of a storage pool, network or instance. -/
def Args.name : Args → Option Output
  | .storagePool name _ => some name
  | .network name _ _ => some name
  | .inst name _ _ _ _ _ => some name
  | _ => none

/-- Argument `Image` of an instance. -/
def Args.image : Args → Option Output
  | .inst _ image _ _ _ _ => some image
  | _ => none

/-- Argument `Type` of a network or instance. -/
def Args.type : Args → Option Output
  | .network _ type _ => some type
  | .inst _ _ type _ _ _ => some type
  | _ => none

/-- Argument `Ephemeral` of an instance. -/
def Args.ephemeral : Args → Option Bool
  | .inst _ _ _ ephemeral _ _ => some ephemeral
  | _ => none

/-- Argument `Devices` of an instance. -/
def Args.devices : Args → List Device
  | .inst _ _ _ _ devices _ => devices
  | _ => []

/-- Argument `Config` of an instance or network. -/
def Args.config : Args → List (String × Output)
  | .inst _ _ _ _ _ config => config
  | .network _ _ config => config
  | _ => []

/-- Argument `Connection` of a remote command. -/
def Args.connection : Args → Option Connection
  | .remoteCommand c _ => some c
  | _ => none

/-- Argument `Create` of a command. -/
def Args.create : Args → Option Output
  | .remoteCommand _ c => some c
  | .localCommand c _ => some c
  | _ => none

/-- Lookup in a `pulumi.StringMap` literal. -/
def lookup (key : String) : List (String × Output) → Option Output
  | [] => none
  | (k, v) :: rest => if k = key then some v else lookup key rest

/-- The declaration of a handle among the registered resources. -/
def declOf (r : Resource) : List Decl → Option Decl
  | [] => none
  | d :: rest => if d.res = r then some d else declOf r rest

/-! ## String constants of the source -/

/-- The constant archCloudInitTemplate of incus.go. -/
def archCloudInitTemplate : String :=
  String.join [
    "#cloud-config\n",
    "users:\n",
    "  - name: pulumi\n",
    "    sudo: ALL=(ALL) NOPASSWD:ALL\n",
    "    groups: [sudo, admin]\n",
    "    shell: /bin/bash\n",
    "    ssh_authorized_keys:\n",
    "      - %s\n",
    "runcmd:\n",
    "  - 'pacman-key --init'\n",
    "  - 'pacman-key --populate'\n",
    "  - 'pacman -Syu --noconfirm'\n",
    "  - 'pacman -S --noconfirm openssh'\n",
    "  - 'systemctl enable --now sshd'\n"]

/-- The constant ubuntuCloudInitTemplate of incus.go. -/
def ubuntuCloudInitTemplate : String :=
  String.join [
    "#cloud-config\n",
    "users:\n",
    "  - name: pulumi\n",
    "    sudo: ALL=(ALL) NOPASSWD:ALL\n",
    "    groups: [sudo, admin]\n",
    "    shell: /bin/bash\n",
    "    ssh_authorized_keys:\n",
    "      - %s\n",
    "runcmd:\n",
    "  - 'apt-get update'\n",
    "  - 'apt-get install -y openssh-server curl'\n",
    "  - 'systemctl enable --now ssh'\n"]

/-- The constant almaCloudInitTemplate of incus.go. -/
def almaCloudInitTemplate : String :=
  String.join [
    "#cloud-config\n",
    "users:\n",
    "  - default\n",
    "  - name: pulumi\n",
    "    # On AlmaLinux 9, the administrative group is 'wheel', not 'sudo'\n",
    "    groups: [ wheel ]\n",
    "    # 1. Explicitly set 'lock_passwd: false'.\n",
    "    #    The 'cloud-init' default can sometimes be 'true'.[1]\n",
    "    lock_passwd: false\n",
    "    # 2. Set the password hash to '*', an invalid, non-empty\n",
    "    #    value. This disables password login without \"locking\"\n",
    "    #    the account for key-based authentication.\n",
    "    passwd: '*'\n",
    "    # Set the user's shell\n",
    "    shell: /bin/bash\n",
    "    # Provide one or more public SSH keys.\n",
    "    # CRITICAL: These MUST NOT be legacy 'ssh-rsa' keys.\n",
    "    # Use 'ssh-ed25519', 'ecdsa-sha2-nistp256', or 'rsa-sha2-512'.\n",
    "    ssh_authorized_keys:\n",
    "      - %s\n",
    "# 2. Run all setup commands in the correct sequence\n",
    "runcmd:\n",
    "  - 'yum install -y curl openssh-server'\n",
    "  - 'systemctl enable --now sshd'\n"]

/-- Text of the Create argument of kube-init (kube.go). -/
def kubeInitScript : String :=
  String.join [
    "\n",
    "\t\t\tset -e\n",
    "\t\t\techo \"Enabling overlay module\"\n",
    "\t\t\t# Load the 'overlay' module for the current boot\n",
    "\t\t\tsudo modprobe overlay\n",
    "\t\t\t# Ensure the 'overlay' module loads on all future boots\n",
    "\t\t\techo overlay | sudo tee /etc/modules-load.d/k3s.conf\n",
    "\t\t\techo \"Installing K3s on master...\"\n",
    "\t\t\t# This single command downloads K3s, installs it, enables it,\n",
    "\t\t\t# and configures it as a server.\n",
    "\t\t\t# It also automatically creates the kubeconfig at /etc/rancher/k3s/k3s.yaml\n",
    "\t\t\tcurl -sfL https://get.k3s.io | sh -\n",
    "\t\t"]

/-- Format string of the Create argument of worker1-join (kube.go). -/
def worker1JoinFormat : String :=
  String.join [
    "\n",
    "\t\t\tset -e\n",
    "\t\t\techo \"Installing K3s on worker (Ubuntu)...\"\n",
    "\t\t\t# We pass the master URL and Token as environment variables\n",
    "\t\t\tcurl -sfL https://get.k3s.io | K3S_URL=%s K3S_TOKEN=%s sh -\n",
    "\t\t"]

/-- Format string of the Create argument of worker2-join (kube.go). -/
def worker2JoinFormat : String :=
  String.join [
    "\n",
    "\t\t\tset -e\n",
    "\t\t\techo \"Installing K3s on worker (Ubuntu)...\"\n",
    "\t\t\t# We pass the master URL and Token as environment variables\n",
    "\t\t\tcurl -sfL https://get.k3s.io | K3S_URL=%s K3S_TOKEN=%s sh -\n",
    "\t\t"]

/-! ## Resource constructors and exports -/

/-- A resource constructor (`incus.NewStoragePool`, `remote.NewCommand`, ...): the engine either
rejects the registration with an error, or records it and the handle is returned. -/
def NewResource (w : World) (ctx : Context) (d : Decl) : Context × Except Error Resource :=
  match w.register d with
  | some err => (ctx, .error err)
  | none => ({ ctx with resources := ctx.resources ++ [d] }, .ok d.res)

/-- The method `ctx.Export`. -/
def Export (ctx : Context) (key : String) (value : Output) : Context :=
  { ctx with exports := ctx.exports ++ [(key, value)] }

/-! ## incus.go -/

/-- Arguments of `incus.NewStoragePool(ctx, "kube-storage-pool", ...)`. -/
def storagePoolDecl : Decl :=
  { res := ⟨.storagePool, "kube-storage-pool"⟩
    args := .storagePool (.str "k8s-pool") (.str "dir") }

/-- Arguments of `incus.NewNetwork(ctx, "kube-network", ...)`. -/
def kubeNetworkDecl : Decl :=
  { res := ⟨.network, "kube-network"⟩
    args := .network (.str "k8s-net") (.str "bridge")
      [("ipv4.address", .str "10.10.10.1/24"),
       ("ipv4.nat", .str "true"),
       ("dns.mode", .str "dynamic")] }

/-- Arguments of `local.NewCommand(ctx, "ufw-forward-rule", ...)`. -/
def firewallRuleDecl (kubeNetwork : Resource) : Decl :=
  { res := ⟨.localCommand, "ufw-forward-rule"⟩
    args := .localCommand (.str "sudo ufw allow in on k8s-net")
      (.str "sudo ufw delete allow in on k8s-net")
    dependsOn := [kubeNetwork] }

/-- The slice `vmDevices` of `LaunchVMs`. -/
def vmDevices (storagePool kubeNetwork : Resource) : List Device :=
  [ { name := .str "root", type := .str "disk",
      properties := [("path", .str "/"), ("pool", storagePool.Name)] },
    { name := .str "eth0", type := .str "nic",
      properties := [("network", kubeNetwork.Name)] } ]

/-- Arguments of `incus.NewInstance(ctx, "master-node", ...)`. -/
def masterNodeDecl (archCloudConfig : Output) (vmDevices : List Device) (firewallRule : Resource) :
    Decl :=
  { res := ⟨.inst, "master-node"⟩
    args := .inst (.str "kube-master") (.str "images:archlinux/cloud") (.str "virtual-machine")
      false vmDevices
      [("user.user-data", archCloudConfig),
       ("security.secureboot", .str "false"),
       ("limits.cpu", .str "2"),
       ("limits.memory", .str "2GB")]
    dependsOn := [firewallRule] }

/-- Arguments of `incus.NewInstance(ctx, "worker-node-1", ...)`. -/
def workerNode1Decl (ubuntuCloudConfig : Output) (vmDevices : List Device)
    (firewallRule : Resource) : Decl :=
  { res := ⟨.inst, "worker-node-1"⟩
    args := .inst (.str "kube-worker-1") (.str "images:ubuntu/25.04/cloud")
      (.str "virtual-machine") false vmDevices
      [("user.user-data", ubuntuCloudConfig),
       ("limits.cpu", .str "2"),
       ("limits.memory", .str "2GB")]
    dependsOn := [firewallRule] }

/-- Arguments of `incus.NewInstance(ctx, "worker-node-2", ...)`. -/
def workerNode2Decl (almaCloudConfig : Output) (storagePool kubeNetwork firewallRule : Resource) :
    Decl :=
  { res := ⟨.inst, "worker-node-2"⟩
    args := .inst (.str "kube-worker-2") (.str "images:almalinux/9/cloud")
      (.str "virtual-machine") false
      [ { name := .str "root", type := .str "disk",
          properties := [("path", .str "/"), ("pool", storagePool.Name)] },
        { name := .str "eth0", type := .str "nic",
          properties := [("network", kubeNetwork.Name)] },
        { name := .str "agent", type := .str "disk",
          properties := [("source", .str "agent:config")] } ]
      [("user.user-data", almaCloudConfig),
       ("limits.cpu", .str "2"),
       ("limits.memory", .str "2GB")]
    dependsOn := [firewallRule] }

/-- The function `LaunchVMs` of incus.go. -/
def LaunchVMs (w : World) (ctx : Context) : Context × IncusNodes × Option Error :=
  match NewResource w ctx storagePoolDecl with
  | (ctx, .error err) => (ctx, {}, some err)
  | (ctx, .ok storagePool) =>
  match NewResource w ctx kubeNetworkDecl with
  | (ctx, .error err) => (ctx, {}, some err)
  | (ctx, .ok kubeNetwork) =>
  match NewResource w ctx (firewallRuleDecl kubeNetwork) with
  | (ctx, .error err) => (ctx, {}, some err)
  | (ctx, .ok firewallRule) =>
  match w.readFile "./pulumi_key.pub" with
  | .error err => (ctx, {}, some err)
  | .ok pubKey =>
  let archCloudConfig := Output.sprintf archCloudInitTemplate [.str pubKey]
  let ubuntuCloudConfig := Output.sprintf ubuntuCloudInitTemplate [.str pubKey]
  let almaCloudConfig := Output.sprintf almaCloudInitTemplate [.str pubKey]
  let vmDevices := vmDevices storagePool kubeNetwork
  match NewResource w ctx (masterNodeDecl archCloudConfig vmDevices firewallRule) with
  | (ctx, .error err) => (ctx, {}, some err)
  | (ctx, .ok masterNode) =>
  match NewResource w ctx (workerNode1Decl ubuntuCloudConfig vmDevices firewallRule) with
  | (ctx, .error err) => (ctx, {}, some err)
  | (ctx, .ok workerNode1) =>
  match NewResource w ctx
      (workerNode2Decl almaCloudConfig storagePool kubeNetwork firewallRule) with
  | (ctx, .error err) => (ctx, {}, some err)
  | (ctx, .ok workerNode2) =>
  (ctx,
   { MasterArchNode := some ⟨masterNode.name⟩
     WorkerUbuntuNode := some ⟨workerNode1.name⟩
     WorkerAlmaNode := some ⟨workerNode2.name⟩ },
   none)

/-! ## kube.go -/

/-- The value `masterConn` of `SetupKube`. -/
def masterConn (master : Instance) (privKey : String) : Connection :=
  { host := master.Ipv4Address, user := .str "pulumi", privateKey := .str privKey,
    dialErrorLimit := some 10 }

/-- The value `worker1Conn` of `SetupKube`. -/
def worker1Conn (workerUbuntu : Instance) (privKey : String) : Connection :=
  { host := workerUbuntu.Ipv4Address, user := .str "pulumi", privateKey := .str privKey }

/-- The value `worker2Conn` of `SetupKube`. -/
def worker2Conn (workerAlma : Instance) (privKey : String) : Connection :=
  { host := workerAlma.Ipv4Address, user := .str "pulumi", privateKey := .str privKey }

/-- The value `k3sUrl` of `SetupKube`. -/
def k3sUrl (master : Instance) : Output :=
  .sprintf "https://%s:6443" [master.Ipv4Address]

/-- Arguments of `remote.NewCommand(ctx, "wait-for-master-ssh", ...)`. -/
def masterSshReadyDecl (masterConn : Connection) (master : Instance) : Decl :=
  { res := ⟨.remoteCommand, "wait-for-master-ssh"⟩
    args := .remoteCommand masterConn (.str "echo 'SSH is ready'")
    dependsOn := [master.res] }

/-- Arguments of `remote.NewCommand(ctx, "reboot-master", ...)`. -/
def rebootCmdDecl (masterConn : Connection) (masterSshReady : Resource) : Decl :=
  { res := ⟨.remoteCommand, "reboot-master"⟩
    args := .remoteCommand masterConn (.str "sudo reboot &")
    dependsOn := [masterSshReady] }

/-- Arguments of `remote.NewCommand(ctx, "master-wait-ssh-reboot", ...)`. -/
def masterSshReadyAfterRebootDecl (masterConn : Connection) (rebootCmd : Resource) : Decl :=
  { res := ⟨.remoteCommand, "master-wait-ssh-reboot"⟩
    args := .remoteCommand masterConn (.str "echo 'SSH is ready after reboot'")
    dependsOn := [rebootCmd] }

/-- Arguments of `remote.NewCommand(ctx, "kube-init", ...)`. -/
def kubeInitCmdDecl (masterConn : Connection) (master : Instance)
    (masterSshReadyAfterReboot : Resource) : Decl :=
  { res := ⟨.remoteCommand, "kube-init"⟩
    args := .remoteCommand masterConn (.str kubeInitScript)
    dependsOn := [master.res, masterSshReadyAfterReboot] }

/-- Arguments of `remote.NewCommand(ctx, "get-kubeconfig", ...)`. -/
def getKubeconfigCmdDecl (masterConn : Connection) (master : Instance) (kubeInitCmd : Resource) :
    Decl :=
  { res := ⟨.remoteCommand, "get-kubeconfig"⟩
    args := .remoteCommand masterConn
      (.sprintf "sudo cat /etc/rancher/k3s/k3s.yaml | sed 's/127.0.0.1/%s/'"
        [master.Ipv4Address])
    dependsOn := [kubeInitCmd] }

/-- Arguments of `remote.NewCommand(ctx, "get-join-token", ...)`. -/
def getJoinTokenCmdDecl (masterConn : Connection) (kubeInitCmd : Resource) : Decl :=
  { res := ⟨.remoteCommand, "get-join-token"⟩
    args := .remoteCommand masterConn
      (.sprintf "sudo cat /var/lib/rancher/k3s/server/node-token\n" [])
    dependsOn := [kubeInitCmd] }

/-- Arguments of `remote.NewCommand(ctx, "wait-for-worker1-ssh", ...)`. -/
def worker1SshReadyDecl (worker1Conn : Connection) (workerUbuntu : Instance)
    (getJoinTokenCmd : Resource) : Decl :=
  { res := ⟨.remoteCommand, "wait-for-worker1-ssh"⟩
    args := .remoteCommand worker1Conn (.str "echo 'SSH is ready'")
    dependsOn := [workerUbuntu.res, getJoinTokenCmd] }

/-- Arguments of `remote.NewCommand(ctx, "worker1-join", ...)`. -/
def worker1JoinCmdDecl (worker1Conn : Connection) (k3sUrl : Output)
    (worker1SshReady getJoinTokenCmd : Resource) : Decl :=
  { res := ⟨.remoteCommand, "worker1-join"⟩
    args := .remoteCommand worker1Conn
      (.sprintf worker1JoinFormat [k3sUrl, getJoinTokenCmd.Stdout])
    dependsOn := [worker1SshReady, getJoinTokenCmd] }

/-- Arguments of `remote.NewCommand(ctx, "wait-for-worker2-ssh", ...)`. -/
def worker2SshReadyDecl (worker2Conn : Connection) (workerAlma : Instance)
    (getJoinTokenCmd : Resource) : Decl :=
  { res := ⟨.remoteCommand, "wait-for-worker2-ssh"⟩
    args := .remoteCommand worker2Conn (.str "echo 'SSH is ready'")
    dependsOn := [workerAlma.res, getJoinTokenCmd] }

/-- Arguments of `remote.NewCommand(ctx, "worker2-join", ...)`; the source passes `worker1Conn`
as its `Connection`. -/
def worker2JoinCmdDecl (worker1Conn : Connection) (k3sUrl : Output)
    (worker2SshReady getJoinTokenCmd : Resource) : Decl :=
  { res := ⟨.remoteCommand, "worker2-join"⟩
    args := .remoteCommand worker1Conn
      (.sprintf worker2JoinFormat [k3sUrl, getJoinTokenCmd.Stdout])
    dependsOn := [worker2SshReady, getJoinTokenCmd] }

/-- Arguments of `kubernetes.NewProvider(ctx, "k8s-provider", ...)`. -/
def k8sProviderDecl (getKubeconfigCmd kubeInitCmd worker1JoinCmd worker2JoinCmd : Resource) :
    Decl :=
  { res := ⟨.provider, "k8s-provider"⟩
    args := .provider getKubeconfigCmd.Stdout
    dependsOn := [kubeInitCmd, worker1JoinCmd, worker2JoinCmd] }

/-- The function `SetupKube` of kube.go.  Every early exit returns `&kubernetes.Provider{}` with
the error; the last statement returns the two values of `kubernetes.NewProvider` unchanged. -/
def SetupKube (w : World) (ctx : Context) (vm_stack : IncusNodes) :
    Context × Outcome (Option Provider) :=
  match w.readFile "./pulumi_key" with
  | .error err => (ctx, .ret (some {}) (some err))
  | .ok privKey =>
  match vm_stack.MasterArchNode with
  | none => (ctx, .panic)
  | some master =>
  let masterConn := masterConn master privKey
  match NewResource w ctx (masterSshReadyDecl masterConn master) with
  | (ctx, .error err) => (ctx, .ret (some {}) (some err))
  | (ctx, .ok masterSshReady) =>
  match NewResource w ctx (rebootCmdDecl masterConn masterSshReady) with
  | (ctx, .error err) => (ctx, .ret (some {}) (some err))
  | (ctx, .ok rebootCmd) =>
  match NewResource w ctx (masterSshReadyAfterRebootDecl masterConn rebootCmd) with
  | (ctx, .error err) => (ctx, .ret (some {}) (some err))
  | (ctx, .ok masterSshReadyAfterReboot) =>
  match NewResource w ctx (kubeInitCmdDecl masterConn master masterSshReadyAfterReboot) with
  | (ctx, .error err) => (ctx, .ret (some {}) (some err))
  | (ctx, .ok kubeInitCmd) =>
  let k3sUrl := k3sUrl master
  match NewResource w ctx (getKubeconfigCmdDecl masterConn master kubeInitCmd) with
  | (ctx, .error err) => (ctx, .ret (some {}) (some err))
  | (ctx, .ok getKubeconfigCmd) =>
  match NewResource w ctx (getJoinTokenCmdDecl masterConn kubeInitCmd) with
  | (ctx, .error err) => (ctx, .ret (some {}) (some err))
  | (ctx, .ok getJoinTokenCmd) =>
  match vm_stack.WorkerUbuntuNode with
  | none => (ctx, .panic)
  | some workerUbuntu =>
  let worker1Conn := worker1Conn workerUbuntu privKey
  match NewResource w ctx (worker1SshReadyDecl worker1Conn workerUbuntu getJoinTokenCmd) with
  | (ctx, .error err) => (ctx, .ret (some {}) (some err))
  | (ctx, .ok worker1SshReady) =>
  match NewResource w ctx
      (worker1JoinCmdDecl worker1Conn k3sUrl worker1SshReady getJoinTokenCmd) with
  | (ctx, .error err) => (ctx, .ret (some {}) (some err))
  | (ctx, .ok worker1JoinCmd) =>
  match vm_stack.WorkerAlmaNode with
  | none => (ctx, .panic)
  | some workerAlma =>
  let worker2Conn := worker2Conn workerAlma privKey
  match NewResource w ctx (worker2SshReadyDecl worker2Conn workerAlma getJoinTokenCmd) with
  | (ctx, .error err) => (ctx, .ret (some {}) (some err))
  | (ctx, .ok worker2SshReady) =>
  match NewResource w ctx
      (worker2JoinCmdDecl worker1Conn k3sUrl worker2SshReady getJoinTokenCmd) with
  | (ctx, .error err) => (ctx, .ret (some {}) (some err))
  | (ctx, .ok worker2JoinCmd) =>
  match NewResource w ctx
      (k8sProviderDecl getKubeconfigCmd kubeInitCmd worker1JoinCmd worker2JoinCmd) with
  | (ctx, .error err) => (ctx, .ret (w.failedProvider) (some err))
  | (ctx, .ok provider) => (ctx, .ret (some ⟨provider.name⟩) none)

/-! ## main.go -/

/-- The function handed to `pulumi.Run` in `main`.  `NginxDeployment` is defined outside the
three source files and is a parameter: given the context and the provider it returns a context
and either a deployment pointer with an error value, or panics. -/
def main (w : World)
    (NginxDeployment : Context → Option Provider → Context × Outcome (Option Deployment))
    (ctx : Context) : Context × Outcome Unit :=
  match LaunchVMs w ctx with
  | (ctx, _, some err) => (ctx, .ret () (some err))
  | (ctx, vm_stack, none) =>
  match vm_stack.MasterArchNode with
  | none => (ctx, .panic)
  | some master =>
  let ctx := Export ctx "masterIp" master.Ipv4Address
  match vm_stack.WorkerUbuntuNode with
  | none => (ctx, .panic)
  | some workerUbuntu =>
  let ctx := Export ctx "worker1Ip" workerUbuntu.Ipv4Address
  match vm_stack.WorkerAlmaNode with
  | none => (ctx, .panic)
  | some workerAlma =>
  let ctx := Export ctx "worker2Ip" workerAlma.Ipv4Address
  match SetupKube w ctx vm_stack with
  | (ctx, .panic) => (ctx, .panic)
  | (ctx, .ret _ (some err)) => (ctx, .ret () (some err))
  | (ctx, .ret k8sProvider none) =>
  match NginxDeployment ctx k8sProvider with
  | (ctx, .panic) => (ctx, .panic)
  | (ctx, .ret none _) => (ctx, .panic)
  | (ctx, .ret (some deployment) _) =>
  let ctx := Export ctx "name" deployment.MetadataName
  (ctx, .ret () none)

/-- A line break character. -/
def isBreak (c : Char) : Bool := c == '\n' || c == '\r'

/-- The lines of a text: the maximal runs of characters without a line break. -/
def textLines : List Char → List (List Char)
  | [] => [[]]
  | c :: cs =>
    if isBreak c then [] :: textLines cs
    else
      match textLines cs with
      | [] => [[c]]
      | l :: ls => (c :: l) :: ls

/-- The line that opens the list of authorized keys in the cloud-init documents. -/
def keysLine : List Char := "    ssh_authorized_keys:".toList

/-- The text of a list item written at the indentation of the authorized keys (`      - text`). -/
def listItem : List Char → Option (List Char)
  | ' ' :: ' ' :: ' ' :: ' ' :: ' ' :: ' ' :: '-' :: ' ' :: text => some text
  | _ => none

/-- The list items at the head of some lines: blank lines are skipped and the first line that
is neither blank nor a list item ends the list. -/
def leadingItems : List (List Char) → List (List Char)
  | [] => []
  | l :: ls =>
    match listItem l with
    | some text => text :: leadingItems ls
    | none => if l = [] then leadingItems ls else []

/-- The list items directly under the first line `    ssh_authorized_keys:`. -/
def itemsUnderKeys : List (List Char) → List (List Char)
  | [] => []
  | l :: ls => if l = keysLine then leadingItems ls else itemsUnderKeys ls

/-- The list items directly under `ssh_authorized_keys:` in a document. -/
def authorizedKeys (doc : String) : List String :=
  (itemsUnderKeys (textLines doc.toList)).map String.mk

/-- The first line of a document. -/
def firstLine (doc : String) : String :=
  String.mk ((textLines doc.toList).headD [])

/-- What a cloud-init template parameterized by one public key does with a key: the template
has exactly one `%s` and no other `%`; formatting puts the key, unchanged, in the place of
`%s`; the result starts with the line `#cloud-config`; and when the key holds no line break,
the key is the only list item under `ssh_authorized_keys:`, also when one newline follows it. -/
def KeyedBy (template key : String) : Prop :=
  (∃ pre post : String,
    template = pre ++ "%s" ++ post ∧ '%' ∉ pre.toList ∧ '%' ∉ post.toList ∧
    Sprintf template [key] = some (pre ++ key ++ post)) ∧
  (Sprintf template [key]).map firstLine = some "#cloud-config" ∧
  ((∀ c ∈ key.toList, isBreak c = false) →
    (Sprintf template [key]).map authorizedKeys = some [key] ∧
    (Sprintf template [key ++ "\n"]).map authorizedKeys = some [key])

/-- A key that carries a second list item after a line break. -/
def twoItemKey : String := "ssh-ed25519 AAAA one\n      - ssh-ed25519 BBBB two"

/-! ## Vocabulary of the properties -/

/-- One fallible step of `LaunchVMs` or `SetupKube`: a file read or a constructor call. -/
inductive Step where
  | read (path : String)
  | declare (d : Decl)

/-- The error a step returns in a world, `none` when it succeeds. -/
def Step.err (w : World) : Step → Option Error
  | .read path =>
    match w.readFile path with
    | .error e => some e
    | .ok _ => none
  | .declare d => w.register d

/-- The declarations among some steps. -/
def stepDecls : List Step → List Decl
  | [] => []
  | .read _ :: rest => stepDecls rest
  | .declare d :: rest => d :: stepDecls rest

/-- Step `i` returns error `e` and every step before it succeeds. -/
def FirstError (w : World) (steps : List Step) (i : Nat) (e : Error) : Prop :=
  (∃ s, steps[i]? = some s ∧ s.err w = some e) ∧
  ∀ j, j < i → ∀ s, steps[j]? = some s → s.err w = none

/-- Index and error of the first failing step, if any. -/
def firstFailure (w : World) : List Step → Option (Nat × Error)
  | [] => none
  | s :: rest =>
    match s.err w with
    | some e => some (0, e)
    | none => (firstFailure w rest).map (fun p => (p.1 + 1, p.2))

/-- Text of a file, empty when it cannot be read. -/
def fileText (w : World) (path : String) : String :=
  match w.readFile path with
  | .ok s => s
  | .error _ => ""

/-- The context with further resources registered. -/
def Context.declare (ctx : Context) (ds : List Decl) : Context :=
  { ctx with resources := ctx.resources ++ ds }

/-- The resources registered between two contexts. -/
def newResources (before after : Context) : List Decl :=
  after.resources.drop before.resources.length

/-- The six declarations of `LaunchVMs` in source order, for a given public key. -/
def launchDecls (pubKey : String) : List Decl :=
  let storagePool := storagePoolDecl
  let kubeNetwork := kubeNetworkDecl
  let firewallRule := firewallRuleDecl kubeNetwork.res
  let devices := vmDevices storagePool.res kubeNetwork.res
  [storagePool, kubeNetwork, firewallRule,
   masterNodeDecl (.sprintf archCloudInitTemplate [.str pubKey]) devices firewallRule.res,
   workerNode1Decl (.sprintf ubuntuCloudInitTemplate [.str pubKey]) devices firewallRule.res,
   workerNode2Decl (.sprintf almaCloudInitTemplate [.str pubKey]) storagePool.res kubeNetwork.res
     firewallRule.res]

/-- The seven fallible steps of `LaunchVMs` in source order. -/
def launchSteps (pubKey : String) : List Step :=
  ((launchDecls pubKey).take 3).map .declare ++ [.read "./pulumi_key.pub"]
    ++ ((launchDecls pubKey).drop 3).map .declare

/-- The nodes `LaunchVMs` returns on success. -/
def launchedNodes : IncusNodes :=
  { MasterArchNode := some ⟨"master-node"⟩
    WorkerUbuntuNode := some ⟨"worker-node-1"⟩
    WorkerAlmaNode := some ⟨"worker-node-2"⟩ }

/-- The eleven declarations of `SetupKube` in source order, for a given private key and nodes. -/
def kubeDecls (privKey : String) (master workerUbuntu workerAlma : Instance) : List Decl :=
  let mc := masterConn master privKey
  let masterSshReady := masterSshReadyDecl mc master
  let rebootCmd := rebootCmdDecl mc masterSshReady.res
  let masterSshReadyAfterReboot := masterSshReadyAfterRebootDecl mc rebootCmd.res
  let kubeInitCmd := kubeInitCmdDecl mc master masterSshReadyAfterReboot.res
  let getKubeconfigCmd := getKubeconfigCmdDecl mc master kubeInitCmd.res
  let getJoinTokenCmd := getJoinTokenCmdDecl mc kubeInitCmd.res
  let c1 := worker1Conn workerUbuntu privKey
  let worker1SshReady := worker1SshReadyDecl c1 workerUbuntu getJoinTokenCmd.res
  let worker1JoinCmd := worker1JoinCmdDecl c1 (k3sUrl master) worker1SshReady.res
    getJoinTokenCmd.res
  let c2 := worker2Conn workerAlma privKey
  let worker2SshReady := worker2SshReadyDecl c2 workerAlma getJoinTokenCmd.res
  let worker2JoinCmd := worker2JoinCmdDecl c1 (k3sUrl master) worker2SshReady.res
    getJoinTokenCmd.res
  [masterSshReady, rebootCmd, masterSshReadyAfterReboot, kubeInitCmd, getKubeconfigCmd,
   getJoinTokenCmd, worker1SshReady, worker1JoinCmd, worker2SshReady, worker2JoinCmd,
   k8sProviderDecl getKubeconfigCmd.res kubeInitCmd.res worker1JoinCmd.res worker2JoinCmd.res]

/-- The twelve fallible steps of `SetupKube` in source order. -/
def kubeSteps (privKey : String) (master workerUbuntu workerAlma : Instance) : List Step :=
  .read "./pulumi_key" :: (kubeDecls privKey master workerUbuntu workerAlma).map .declare

/-- Direct dependency: `x` is declared with `y` in its `pulumi.DependsOn` list. -/
def Depends (g : List Decl) (x y : Resource) : Prop :=
  ∃ d ∈ g, d.res = x ∧ y ∈ d.dependsOn

/-- Transitive closure of the declared `dependsOn` lists. -/
def DependsTrans (g : List Decl) : Resource → Resource → Prop :=
  Relation.TransGen (Depends g)

/-- Handle of a remote command by logical name. -/
def cmd (name : String) : Resource := ⟨.remoteCommand, name⟩

/-- The seven bootstrap commands in the order the specification lists them. -/
def bootstrapChain : List Resource :=
  [cmd "wait-for-master-ssh", cmd "reboot-master", cmd "master-wait-ssh-reboot", cmd "kube-init",
   cmd "get-join-token", cmd "worker1-join", cmd "worker2-join"]

/-- Every command of a list depends, transitively, on the one listed right before it. -/
def LinearChain (g : List Decl) (chain : List Resource) : Prop :=
  List.Chain' (fun before after => DependsTrans g after before) chain

/-- A world in which both key files exist and the engine accepts every registration. -/
def happyWorld : World :=
  { readFile := fun path =>
      if path = "./pulumi_key.pub" then .ok "ssh-ed25519 AAAAC3Nza pulumi\n" else .ok "PRIVATE\n"
    register := fun _ => none
    failedProvider := none }

/-- A world in which only the registration of `k8s-provider` is rejected, and the provider
constructor returns a nil pointer with its error. -/
def providerRejected : World :=
  { happyWorld with
    register := fun d => if d.res = ⟨.provider, "k8s-provider"⟩ then some "rejected" else none }

/-- A deployment stage that registers nothing and returns a deployment together with an error. -/
def nginxFails (ctx : Context) (_ : Option Provider) : Context × Outcome (Option Deployment) :=
  (ctx, .ret (some ⟨"nginx"⟩) (some "deployment failed"))

/-- A deployment stage that registers nothing and returns a nil deployment with an error. -/
def nginxFailsNil (ctx : Context) (_ : Option Provider) :
    Context × Outcome (Option Deployment) :=
  (ctx, .ret none (some "deployment failed"))

/-- A deployment stage that registers nothing and succeeds. -/
def nginxOk (ctx : Context) (_ : Option Provider) : Context × Outcome (Option Deployment) :=
  (ctx, .ret (some ⟨"nginx"⟩) none)

/-- Handles and `dependsOn` lists of some declarations. -/
def depGraph (g : List Decl) : List (Resource × List Resource) :=
  g.map (fun d => (d.res, d.dependsOn))

/-- Handle of the provider `k8s-provider`. -/
def k8sProvider : Resource := ⟨.provider, "k8s-provider"⟩

/-- The symbolic host of the connection a registered command uses. -/
def hostOf (g : List Decl) (r : Resource) : Option Output :=
  ((declOf r g).bind (fun d => d.args.connection)).map (fun c => c.host)

/-- The text of the `Create` argument of a registered command once outputs are resolved. -/
def createText (ρ : Resource → String → String) (g : List Decl) (r : Resource) : Option String :=
  ((declOf r g).bind (fun d => d.args.create)).bind (Output.resolve ρ)

/-- Handle of the storage pool `kube-storage-pool`. -/
def poolRes : Resource := ⟨.storagePool, "kube-storage-pool"⟩

/-- Handle of the bridge network `kube-network`. -/
def netRes : Resource := ⟨.network, "kube-network"⟩

/-- Handle of the local command `ufw-forward-rule`. -/
def ufwRes : Resource := ⟨.localCommand, "ufw-forward-rule"⟩

/-- Handle of an instance by logical name. -/
def vm (name : String) : Resource := ⟨.inst, name⟩

/-- An instance registered in `g` under handle `r` with the base configuration: its devices are
the `root` disk on the storage pool and the `eth0` nic on the bridge network, followed by
`extra`; it is a non-ephemeral virtual machine with 2 CPUs and 2GB; it depends on the ufw rule. -/
def BaseVM (g : List Decl) (r : Resource) (extra : List Device) : Prop :=
  ∃ d, declOf r g = some d ∧
    d.args.devices =
      [ { name := .str "root", type := .str "disk",
          properties := [("path", .str "/"), ("pool", poolRes.Name)] },
        { name := .str "eth0", type := .str "nic",
          properties := [("network", netRes.Name)] } ] ++ extra ∧
    d.args.type = some (.str "virtual-machine") ∧
    d.args.ephemeral = some false ∧
    lookup "limits.cpu" d.args.config = some (.str "2") ∧
    lookup "limits.memory" d.args.config = some (.str "2GB") ∧
    Depends g r ufwRes

/-- An instance registered in `g` under handle `r` with the given name, image and cloud-init
document (`user.user-data`). -/
def Launched (g : List Decl) (r : Resource) (name image : String) (userData : Output) : Prop :=
  ∃ d, declOf r g = some d ∧
    d.args.name = some (.str name) ∧
    d.args.image = some (.str image) ∧
    lookup "user.user-data" d.args.config = some userData

/-- A resolution of the outputs: every address is `10.10.10.2`, every other attribute `K10TOKEN`. -/
def sampleResolution (_ : Resource) (field : String) : String :=
  if field = "ipv4Address" then "10.10.10.2" else "K10TOKEN"

/-- A public key as `ssh-keygen` writes it, without its final newline. -/
def sampleKey : String := "ssh-ed25519 AAAAC3Nza pulumi"

/-! ## Theorems -/

set_option maxRecDepth 100000

/-! ## Lemmas on `fmt.Sprintf` -/

theorem doPrintf_cons_ne (c : Char) (l : List Char) (args : List String) (hc : c ≠ '%') :
    doPrintf (c :: l) args = (doPrintf l args).map (fun r => c :: r) := by
  cases l with
  | nil => simp [doPrintf, hc]
  | cons v fs => simp [doPrintf, hc]

theorem doPrintf_literal (pre rest : List Char) (args : List String) (hpre : '%' ∉ pre) :
    doPrintf (pre ++ rest) args = (doPrintf rest args).map (fun r => pre ++ r) := by
  induction pre with
  | nil => simp
  | cons c cs ih =>
    have hc : c ≠ '%' := fun h => hpre (by simp [h])
    have hcs : '%' ∉ cs := fun h => hpre (by simp [h])
    rw [List.cons_append, doPrintf_cons_ne _ _ _ hc, ih hcs]
    cases doPrintf rest args <;> simp

theorem doPrintf_verb (fs : List Char) (a : String) (rest : List String) :
    doPrintf ('%' :: 's' :: fs) (a :: rest) = (doPrintf fs rest).map (fun r => a.toList ++ r) := by
  simp [doPrintf]

theorem doPrintf_plain (l : List Char) (hl : '%' ∉ l) : doPrintf l [] = some l := by
  have h := doPrintf_literal l [] [] hl
  simpa [doPrintf, atEnd] using h

/-- A format with a single `%s` and no other `%`: the operand replaces the verb verbatim. -/
theorem Sprintf_one (pre post k : String) (hpre : '%' ∉ pre.toList) (hpost : '%' ∉ post.toList) :
    Sprintf (pre ++ "%s" ++ post) [k] = some (pre ++ k ++ post) := by
  have h : (pre ++ "%s" ++ post).toList = pre.toList ++ ('%' :: 's' :: post.toList) := by
    simp [String.toList, String.data_append]
  unfold Sprintf
  rw [h, doPrintf_literal _ _ _ hpre, doPrintf_verb, doPrintf_plain _ hpost]
  simp [String.ext_iff, String.data_append, String.toList]

/-- A format with two `%s` and no other `%`: each operand replaces its verb verbatim. -/
theorem Sprintf_two (pre mid post a b : String) (hpre : '%' ∉ pre.toList)
    (hmid : '%' ∉ mid.toList) (hpost : '%' ∉ post.toList) :
    Sprintf (pre ++ "%s" ++ mid ++ "%s" ++ post) [a, b] = some (pre ++ a ++ mid ++ b ++ post) := by
  have h : (pre ++ "%s" ++ mid ++ "%s" ++ post).toList
      = pre.toList ++ ('%' :: 's' :: (mid.toList ++ ('%' :: 's' :: post.toList))) := by
    simp [String.toList, String.data_append]
  unfold Sprintf
  rw [h, doPrintf_literal _ _ _ hpre, doPrintf_verb, doPrintf_literal _ _ _ hmid, doPrintf_verb,
    doPrintf_plain _ hpost]
  simp [String.ext_iff, String.data_append, String.toList]

/-! ## Lines and list items of a formatted cloud-init document -/

theorem textLines_ne_nil (a : List Char) : textLines a ≠ [] := by
  cases a with
  | nil => simp [textLines]
  | cons c cs =>
    simp only [textLines]
    split
    · simp
    · split <;> simp

theorem textLines_append_break (a b : List Char) (c : Char) (hc : isBreak c = true) :
    textLines (a ++ c :: b) = textLines a ++ textLines b := by
  induction a with
  | nil => simp [textLines, hc]
  | cons x xs ih =>
    by_cases hx : isBreak x = true
    · simp [textLines, hx, ih]
    · have hne := textLines_ne_nil xs
      cases hxs : textLines xs with
      | nil => exact absurd hxs hne
      | cons l ls => simp [textLines, hx, ih, hxs]

theorem textLines_of_noBreak (a : List Char) (ha : ∀ c ∈ a, isBreak c = false) :
    textLines a = [a] := by
  induction a with
  | nil => simp [textLines]
  | cons x xs ih =>
    have hx : isBreak x = false := ha x (by simp)
    have hxs : textLines xs = [xs] := ih (fun c hc => ha c (by simp [hc]))
    simp [textLines, hx, hxs]

theorem itemsUnderKeys_skip (xs rest : List (List Char)) (hxs : keysLine ∉ xs) :
    itemsUnderKeys (xs ++ keysLine :: rest) = leadingItems rest := by
  induction xs with
  | nil => simp [itemsUnderKeys]
  | cons l ls ih =>
    have hl : l ≠ keysLine := fun h => hxs (by simp [h])
    have hls : keysLine ∉ ls := fun h => hxs (by simp [h])
    simp [itemsUnderKeys, hl, ih hls]

theorem listItem_marker (text : List Char) :
    listItem (' ' :: ' ' :: ' ' :: ' ' :: ' ' :: ' ' :: '-' :: ' ' :: text) = some text := rfl

theorem items_of_document (B T k : List Char) (hB : keysLine ∉ textLines B)
    (hk : ∀ c ∈ k, isBreak c = false) (hT : leadingItems (textLines T) = []) :
    itemsUnderKeys (textLines (B ++ '\n' :: (keysLine ++ '\n' ::
      ((' ' :: ' ' :: ' ' :: ' ' :: ' ' :: ' ' :: '-' :: ' ' :: k) ++ '\n' :: T)))) = [k] ∧
    itemsUnderKeys (textLines (B ++ '\n' :: (keysLine ++ '\n' ::
      ((' ' :: ' ' :: ' ' :: ' ' :: ' ' :: ' ' :: '-' :: ' ' :: (k ++ ['\n'])) ++ '\n' :: T))))
      = [k] := by
  have hbreak : isBreak '\n' = true := by decide
  have hkeys : textLines keysLine = [keysLine] := by decide
  have hitem : textLines (' ' :: ' ' :: ' ' :: ' ' :: ' ' :: ' ' :: '-' :: ' ' :: k)
      = [' ' :: ' ' :: ' ' :: ' ' :: ' ' :: ' ' :: '-' :: ' ' :: k] := by
    apply textLines_of_noBreak
    intro c hc
    simp only [List.mem_cons] at hc
    rcases hc with rfl | rfl | rfl | rfl | rfl | rfl | rfl | rfl | hc
    all_goals first | exact hk c hc | decide
  constructor
  · rw [textLines_append_break _ _ _ hbreak, textLines_append_break _ _ _ hbreak,
      textLines_append_break _ _ _ hbreak, hkeys, hitem, List.singleton_append,
      itemsUnderKeys_skip _ _ hB]
    simp [leadingItems, listItem_marker, hT]
  · have hshape : (' ' :: ' ' :: ' ' :: ' ' :: ' ' :: ' ' :: '-' :: ' ' :: (k ++ ['\n'])) ++ '\n' :: T
        = (' ' :: ' ' :: ' ' :: ' ' :: ' ' :: ' ' :: '-' :: ' ' :: k) ++ '\n' :: ([] ++ '\n' :: T) := by
      simp
    rw [hshape, textLines_append_break _ _ _ hbreak, textLines_append_break _ _ _ hbreak,
      textLines_append_break _ _ _ hbreak, textLines_append_break _ _ _ hbreak, hkeys, hitem,
      List.singleton_append, itemsUnderKeys_skip _ _ hB]
    simp [leadingItems, listItem_marker, hT, textLines, listItem]

theorem firstLine_cloudConfig (rest : String) :
    firstLine ("#cloud-config\n" ++ rest) = "#cloud-config" := by
  have hsplit : ("#cloud-config\n" ++ rest).toList
      = "#cloud-config".toList ++ '\n' :: rest.toList := by
    simp only [String.toList, String.data_append]
    rfl
  have hline : textLines "#cloud-config".toList = ["#cloud-config".toList] := by decide
  unfold firstLine
  rw [hsplit, textLines_append_break _ _ _ (by decide), hline]
  rfl

/-- A template of the shape `#cloud-config`, `head`, the keys line, `- %s`, `tail` is keyed by
every key, provided `%` and the keys line occur nowhere else and `tail` opens with a line that
is no list item. -/
theorem keyed_of_split (template head tail key : String)
    (hsplit : template = "#cloud-config\n" ++ (head ++ "\n    ssh_authorized_keys:\n      - ")
      ++ "%s" ++ ("\n" ++ tail))
    (hhead : '%' ∉ head.toList) (htail : '%' ∉ tail.toList)
    (hB : keysLine ∉ textLines ("#cloud-config\n" ++ head).toList)
    (hT : leadingItems (textLines tail.toList) = []) :
    KeyedBy template key := by
  have hpre : '%' ∉ ("#cloud-config\n" ++ (head ++ "\n    ssh_authorized_keys:\n      - ")).toList := by
    simp only [String.toList, String.data_append, List.mem_append, not_or]
    exact ⟨by decide, hhead, by decide⟩
  have hpost : '%' ∉ ("\n" ++ tail).toList := by
    simp only [String.toList, String.data_append, List.mem_append, not_or]
    exact ⟨by decide, htail⟩
  have hS : ∀ k : String, Sprintf template [k] =
      some ("#cloud-config\n" ++ (head ++ "\n    ssh_authorized_keys:\n      - ") ++ k
        ++ ("\n" ++ tail)) := by
    intro k
    rw [hsplit]
    exact Sprintf_one _ _ _ hpre hpost
  have hdata : ∀ k : String,
      ("#cloud-config\n" ++ (head ++ "\n    ssh_authorized_keys:\n      - ") ++ k
        ++ ("\n" ++ tail)).toList
      = ("#cloud-config\n" ++ head).toList ++ '\n' :: (keysLine ++ '\n' ::
        ((' ' :: ' ' :: ' ' :: ' ' :: ' ' :: ' ' :: '-' :: ' ' :: k.toList) ++ '\n' ::
          tail.toList)) := by
    intro k
    simp [String.toList, String.data_append, keysLine]
  have hkeynl : (key ++ "\n").toList = key.toList ++ ['\n'] := by
    simp [String.toList, String.data_append]
  refine ⟨⟨_, _, hsplit, hpre, hpost, hS key⟩, ?_, fun hkey => ⟨?_, ?_⟩⟩
  · rw [hS, Option.map_some', String.append_assoc, String.append_assoc, firstLine_cloudConfig]
  · rw [hS, Option.map_some']
    unfold authorizedKeys
    rw [hdata key, (items_of_document _ _ _ hB hkey hT).1]
    rfl
  · rw [hS, Option.map_some']
    unfold authorizedKeys
    rw [hdata (key ++ "\n"), hkeynl, (items_of_document _ _ _ hB hkey hT).2]
    rfl

/-- C5 (as stated) fails for a key with an embedded line break: formatted with `twoItemKey`,
each of the three documents has two list items under `ssh_authorized_keys:`, so the key is not
the sole list item there. -/
theorem second_item_under_keys :
    (Sprintf archCloudInitTemplate [twoItemKey]).map authorizedKeys
      = some ["ssh-ed25519 AAAA one", "ssh-ed25519 BBBB two"] ∧
    (Sprintf ubuntuCloudInitTemplate [twoItemKey]).map authorizedKeys
      = some ["ssh-ed25519 AAAA one", "ssh-ed25519 BBBB two"] ∧
    (Sprintf almaCloudInitTemplate [twoItemKey]).map authorizedKeys
      = some ["ssh-ed25519 AAAA one", "ssh-ed25519 BBBB two"] ∧
    (Sprintf archCloudInitTemplate [twoItemKey]).map authorizedKeys ≠ some [twoItemKey] ∧
    (Sprintf ubuntuCloudInitTemplate [twoItemKey]).map authorizedKeys ≠ some [twoItemKey] ∧
    (Sprintf almaCloudInitTemplate [twoItemKey]).map authorizedKeys ≠ some [twoItemKey] := by
  refine ⟨?_, ?_, ?_, ?_, ?_, ?_⟩ <;> decide

/-- C5 (amended): each of the three cloud-init templates has exactly one `%s` verb and no other
`%`, so for every key string (also one that contains `%` or line breaks) formatting yields the
template text with the verb replaced verbatim by the key, and the result starts with the line
`#cloud-config`; for every key without a line break, alone or followed by one newline, the key
is the sole list item directly under `ssh_authorized_keys:`. -/
theorem cloudInit_keyed (key : String) :
    KeyedBy archCloudInitTemplate key ∧
    KeyedBy ubuntuCloudInitTemplate key ∧
    KeyedBy almaCloudInitTemplate key := by
  refine ⟨?_, ?_, ?_⟩
  · exact keyed_of_split _
      (String.join ["users:\n", "  - name: pulumi\n", "    sudo: ALL=(ALL) NOPASSWD:ALL\n",
        "    groups: [sudo, admin]\n", "    shell: /bin/bash"])
      (String.join ["runcmd:\n", "  - 'pacman-key --init'\n", "  - 'pacman-key --populate'\n",
        "  - 'pacman -Syu --noconfirm'\n", "  - 'pacman -S --noconfirm openssh'\n",
        "  - 'systemctl enable --now sshd'\n"])
      key (by decide) (by decide) (by decide) (by decide) (by decide)
  · exact keyed_of_split _
      (String.join ["users:\n", "  - name: pulumi\n", "    sudo: ALL=(ALL) NOPASSWD:ALL\n",
        "    groups: [sudo, admin]\n", "    shell: /bin/bash"])
      (String.join ["runcmd:\n", "  - 'apt-get update'\n",
        "  - 'apt-get install -y openssh-server curl'\n", "  - 'systemctl enable --now ssh'\n"])
      key (by decide) (by decide) (by decide) (by decide) (by decide)
  · exact keyed_of_split _
      (String.join ["users:\n", "  - default\n", "  - name: pulumi\n",
        "    # On AlmaLinux 9, the administrative group is 'wheel', not 'sudo'\n",
        "    groups: [ wheel ]\n",
        "    # 1. Explicitly set 'lock_passwd: false'.\n",
        "    #    The 'cloud-init' default can sometimes be 'true'.[1]\n",
        "    lock_passwd: false\n",
        "    # 2. Set the password hash to '*', an invalid, non-empty\n",
        "    #    value. This disables password login without \"locking\"\n",
        "    #    the account for key-based authentication.\n",
        "    passwd: '*'\n",
        "    # Set the user's shell\n",
        "    shell: /bin/bash\n",
        "    # Provide one or more public SSH keys.\n",
        "    # CRITICAL: These MUST NOT be legacy 'ssh-rsa' keys.\n",
        "    # Use 'ssh-ed25519', 'ecdsa-sha2-nistp256', or 'rsa-sha2-512'."])
      (String.join ["# 2. Run all setup commands in the correct sequence\n", "runcmd:\n",
        "  - 'yum install -y curl openssh-server'\n", "  - 'systemctl enable --now sshd'\n"])
      key (by decide) (by decide) (by decide) (by decide) (by decide)

/-- Witness of C5 (amended): `sampleKey` holds no line break and is the sole list item under
`ssh_authorized_keys:` in the Arch document, alone and followed by one newline. -/
theorem cloudInit_keyed_witness :
    (∀ c ∈ sampleKey.toList, isBreak c = false) ∧
    (Sprintf archCloudInitTemplate [sampleKey]).map authorizedKeys = some [sampleKey] ∧
    (Sprintf archCloudInitTemplate [sampleKey ++ "\n"]).map authorizedKeys = some [sampleKey] :=
  ⟨by decide, (cloudInit_keyed sampleKey).1.2.2 (by decide)⟩

/-! ## `LaunchVMs` and `SetupKube` run their steps in order and stop at the first error -/

theorem firstFailure_of_firstError (w : World) (steps : List Step) (i : Nat) (e : Error)
    (h : FirstError w steps i e) : firstFailure w steps = some (i, e) := by
  induction steps generalizing i with
  | nil =>
    obtain ⟨⟨s, hs, _⟩, _⟩ := h
    simp at hs
  | cons s rest ih =>
    obtain ⟨⟨t, ht, hte⟩, hprev⟩ := h
    cases i with
    | zero =>
      simp at ht
      subst ht
      simp [firstFailure, hte]
    | succ n =>
      have hs : s.err w = none := hprev 0 (Nat.succ_pos n) s (by simp)
      have hrest : FirstError w rest n e := by
        refine ⟨⟨t, by simpa using ht, hte⟩, fun j hj u hu => ?_⟩
        exact hprev (j + 1) (Nat.succ_lt_succ hj) u (by simpa using hu)
      simp [firstFailure, hs, ih n hrest]

theorem firstFailure_eq_none (w : World) (steps : List Step) :
    firstFailure w steps = none ↔ ∀ s ∈ steps, s.err w = none := by
  induction steps with
  | nil => simp [firstFailure]
  | cons s rest ih =>
    cases hs : s.err w with
    | none => simp [firstFailure, hs, ih]
    | some e => simp [firstFailure, hs]

theorem LaunchVMs_eq (w : World) (ctx : Context) :
    LaunchVMs w ctx =
      match firstFailure w (launchSteps (fileText w "./pulumi_key.pub")) with
      | some (i, e) =>
        (ctx.declare (stepDecls ((launchSteps (fileText w "./pulumi_key.pub")).take i)), {}, some e)
      | none => (ctx.declare (launchDecls (fileText w "./pulumi_key.pub")), launchedNodes, none) := by
  cases hrf : w.readFile "./pulumi_key.pub" with
  | error e0 =>
    cases h0 : w.register storagePoolDecl <;>
    cases h1 : w.register kubeNetworkDecl <;>
    cases h2 : w.register (firewallRuleDecl kubeNetworkDecl.res) <;>
    simp [LaunchVMs, NewResource, launchSteps, launchDecls, firstFailure, Step.err, fileText,
      stepDecls, Context.declare, hrf, h0, h1, h2]
  | ok key =>
    cases h0 : w.register storagePoolDecl <;>
    cases h1 : w.register kubeNetworkDecl <;>
    cases h2 : w.register (firewallRuleDecl kubeNetworkDecl.res) <;>
    cases h3 : w.register (masterNodeDecl (.sprintf archCloudInitTemplate [.str key])
      (vmDevices storagePoolDecl.res kubeNetworkDecl.res) (firewallRuleDecl kubeNetworkDecl.res).res) <;>
    cases h4 : w.register (workerNode1Decl (.sprintf ubuntuCloudInitTemplate [.str key])
      (vmDevices storagePoolDecl.res kubeNetworkDecl.res) (firewallRuleDecl kubeNetworkDecl.res).res) <;>
    cases h5 : w.register (workerNode2Decl (.sprintf almaCloudInitTemplate [.str key])
      storagePoolDecl.res kubeNetworkDecl.res (firewallRuleDecl kubeNetworkDecl.res).res) <;>
    simp [LaunchVMs, NewResource, launchSteps, launchDecls, firstFailure, Step.err, fileText,
      stepDecls, Context.declare, launchedNodes, hrf, h0, h1, h2, h3, h4, h5]
    exact ⟨rfl, rfl, rfl⟩

theorem SetupKube_eq (w : World) (ctx : Context) (m u a : Instance) :
    SetupKube w ctx ⟨some m, some u, some a⟩ =
      match firstFailure w (kubeSteps (fileText w "./pulumi_key") m u a) with
      | some (i, e) =>
        (ctx.declare (stepDecls ((kubeSteps (fileText w "./pulumi_key") m u a).take i)),
          .ret (if i = 11 then w.failedProvider else some {}) (some e))
      | none =>
        (ctx.declare (kubeDecls (fileText w "./pulumi_key") m u a),
          .ret (some ⟨"k8s-provider"⟩) none) := by
  cases hrf : w.readFile "./pulumi_key" with
  | error e0 =>
    simp [SetupKube, kubeSteps, firstFailure, Step.err, fileText, stepDecls, Context.declare, hrf]
  | ok key =>
    simp only [SetupKube, kubeSteps, kubeDecls, fileText, hrf, List.map, firstFailure, Step.err]
    cases h1 : w.register (masterSshReadyDecl (masterConn m key) m)
    swap
    · simp [NewResource, stepDecls, Context.declare, h1]
    cases h2 : w.register (rebootCmdDecl (masterConn m key) (masterSshReadyDecl (masterConn m key) m).res)
    swap
    · simp [NewResource, stepDecls, Context.declare, h1, h2]
    cases h3 : w.register (masterSshReadyAfterRebootDecl (masterConn m key) (rebootCmdDecl (masterConn m key) (masterSshReadyDecl (masterConn m key) m).res).res)
    swap
    · simp [NewResource, stepDecls, Context.declare, h1, h2, h3]
    cases h4 : w.register (kubeInitCmdDecl (masterConn m key) m (masterSshReadyAfterRebootDecl (masterConn m key) (rebootCmdDecl (masterConn m key) (masterSshReadyDecl (masterConn m key) m).res).res).res)
    swap
    · simp [NewResource, stepDecls, Context.declare, h1, h2, h3, h4]
    cases h5 : w.register (getKubeconfigCmdDecl (masterConn m key) m (kubeInitCmdDecl (masterConn m key) m (masterSshReadyAfterRebootDecl (masterConn m key) (rebootCmdDecl (masterConn m key) (masterSshReadyDecl (masterConn m key) m).res).res).res).res)
    swap
    · simp [NewResource, stepDecls, Context.declare, h1, h2, h3, h4, h5]
    cases h6 : w.register (getJoinTokenCmdDecl (masterConn m key) (kubeInitCmdDecl (masterConn m key) m (masterSshReadyAfterRebootDecl (masterConn m key) (rebootCmdDecl (masterConn m key) (masterSshReadyDecl (masterConn m key) m).res).res).res).res)
    swap
    · simp [NewResource, stepDecls, Context.declare, h1, h2, h3, h4, h5, h6]
    cases h7 : w.register (worker1SshReadyDecl (worker1Conn u key) u (getJoinTokenCmdDecl (masterConn m key) (kubeInitCmdDecl (masterConn m key) m (masterSshReadyAfterRebootDecl (masterConn m key) (rebootCmdDecl (masterConn m key) (masterSshReadyDecl (masterConn m key) m).res).res).res).res).res)
    swap
    · simp [NewResource, stepDecls, Context.declare, h1, h2, h3, h4, h5, h6, h7]
    cases h8 : w.register (worker1JoinCmdDecl (worker1Conn u key) (k3sUrl m) (worker1SshReadyDecl (worker1Conn u key) u (getJoinTokenCmdDecl (masterConn m key) (kubeInitCmdDecl (masterConn m key) m (masterSshReadyAfterRebootDecl (masterConn m key) (rebootCmdDecl (masterConn m key) (masterSshReadyDecl (masterConn m key) m).res).res).res).res).res).res (getJoinTokenCmdDecl (masterConn m key) (kubeInitCmdDecl (masterConn m key) m (masterSshReadyAfterRebootDecl (masterConn m key) (rebootCmdDecl (masterConn m key) (masterSshReadyDecl (masterConn m key) m).res).res).res).res).res)
    swap
    · simp [NewResource, stepDecls, Context.declare, h1, h2, h3, h4, h5, h6, h7, h8]
    cases h9 : w.register (worker2SshReadyDecl (worker2Conn a key) a (getJoinTokenCmdDecl (masterConn m key) (kubeInitCmdDecl (masterConn m key) m (masterSshReadyAfterRebootDecl (masterConn m key) (rebootCmdDecl (masterConn m key) (masterSshReadyDecl (masterConn m key) m).res).res).res).res).res)
    swap
    · simp [NewResource, stepDecls, Context.declare, h1, h2, h3, h4, h5, h6, h7, h8, h9]
    cases h10 : w.register (worker2JoinCmdDecl (worker1Conn u key) (k3sUrl m) (worker2SshReadyDecl (worker2Conn a key) a (getJoinTokenCmdDecl (masterConn m key) (kubeInitCmdDecl (masterConn m key) m (masterSshReadyAfterRebootDecl (masterConn m key) (rebootCmdDecl (masterConn m key) (masterSshReadyDecl (masterConn m key) m).res).res).res).res).res).res (getJoinTokenCmdDecl (masterConn m key) (kubeInitCmdDecl (masterConn m key) m (masterSshReadyAfterRebootDecl (masterConn m key) (rebootCmdDecl (masterConn m key) (masterSshReadyDecl (masterConn m key) m).res).res).res).res).res)
    swap
    · simp [NewResource, stepDecls, Context.declare, h1, h2, h3, h4, h5, h6, h7, h8, h9, h10]
    cases h11 : w.register (k8sProviderDecl (getKubeconfigCmdDecl (masterConn m key) m (kubeInitCmdDecl (masterConn m key) m (masterSshReadyAfterRebootDecl (masterConn m key) (rebootCmdDecl (masterConn m key) (masterSshReadyDecl (masterConn m key) m).res).res).res).res).res (kubeInitCmdDecl (masterConn m key) m (masterSshReadyAfterRebootDecl (masterConn m key) (rebootCmdDecl (masterConn m key) (masterSshReadyDecl (masterConn m key) m).res).res).res).res (worker1JoinCmdDecl (worker1Conn u key) (k3sUrl m) (worker1SshReadyDecl (worker1Conn u key) u (getJoinTokenCmdDecl (masterConn m key) (kubeInitCmdDecl (masterConn m key) m (masterSshReadyAfterRebootDecl (masterConn m key) (rebootCmdDecl (masterConn m key) (masterSshReadyDecl (masterConn m key) m).res).res).res).res).res).res (getJoinTokenCmdDecl (masterConn m key) (kubeInitCmdDecl (masterConn m key) m (masterSshReadyAfterRebootDecl (masterConn m key) (rebootCmdDecl (masterConn m key) (masterSshReadyDecl (masterConn m key) m).res).res).res).res).res).res (worker2JoinCmdDecl (worker1Conn u key) (k3sUrl m) (worker2SshReadyDecl (worker2Conn a key) a (getJoinTokenCmdDecl (masterConn m key) (kubeInitCmdDecl (masterConn m key) m (masterSshReadyAfterRebootDecl (masterConn m key) (rebootCmdDecl (masterConn m key) (masterSshReadyDecl (masterConn m key) m).res).res).res).res).res).res (getJoinTokenCmdDecl (masterConn m key) (kubeInitCmdDecl (masterConn m key) m (masterSshReadyAfterRebootDecl (masterConn m key) (rebootCmdDecl (masterConn m key) (masterSshReadyDecl (masterConn m key) m).res).res).res).res).res).res)
    swap
    · simp [NewResource, stepDecls, Context.declare, h1, h2, h3, h4, h5, h6, h7, h8, h9, h10, h11]
    simp [NewResource, stepDecls, Context.declare, h1, h2, h3, h4, h5, h6, h7, h8, h9, h10, h11]
    rfl

theorem newResources_declare (ctx : Context) (ds : List Decl) :
    newResources ctx (ctx.declare ds) = ds := by
  simp [newResources, Context.declare]

theorem LaunchVMs_success (w : World) (ctx ctx' : Context) (vm : IncusNodes)
    (h : LaunchVMs w ctx = (ctx', vm, none)) :
    ctx' = ctx.declare (launchDecls (fileText w "./pulumi_key.pub")) ∧ vm = launchedNodes := by
  rw [LaunchVMs_eq] at h
  cases hf : firstFailure w (launchSteps (fileText w "./pulumi_key.pub")) with
  | some p => simp [hf] at h
  | none =>
    simp only [hf, Prod.mk.injEq] at h
    exact ⟨h.1.symm, h.2.1.symm⟩

theorem SetupKube_success (w : World) (ctx ctx' : Context) (m u a : Instance)
    (p : Option Provider) (h : SetupKube w ctx ⟨some m, some u, some a⟩ = (ctx', .ret p none)) :
    ctx' = ctx.declare (kubeDecls (fileText w "./pulumi_key") m u a) ∧
      p = some ⟨"k8s-provider"⟩ := by
  rw [SetupKube_eq] at h
  cases hf : firstFailure w (kubeSteps (fileText w "./pulumi_key") m u a) with
  | some q => simp [hf] at h
  | none =>
    simp only [hf, Prod.mk.injEq, Outcome.ret.injEq] at h
    exact ⟨h.1.symm, h.2.1.symm⟩

/-! ## The dependency graph of `SetupKube` -/

theorem dependsTrans_closed (g : List Decl) (S : Resource → Prop)
    (hS : ∀ x y, S x → Depends g x y → S y) (x y : Resource) (hxy : DependsTrans g x y)
    (hx : S x) : S y := by
  induction hxy with
  | single h => exact hS _ _ hx h
  | tail _ h ih => exact hS _ _ ih h

theorem depends_iff (g : List Decl) (x y : Resource) :
    Depends g x y ↔ ∃ ys, (x, ys) ∈ depGraph g ∧ y ∈ ys := by
  constructor
  · rintro ⟨d, hd, rfl, hy⟩
    exact ⟨d.dependsOn, List.mem_map.2 ⟨d, hd, rfl⟩, hy⟩
  · rintro ⟨ys, hmem, hy⟩
    obtain ⟨d, hd, hpair⟩ := List.mem_map.1 hmem
    simp only [Prod.mk.injEq] at hpair
    exact ⟨d, hd, hpair.1, hpair.2 ▸ hy⟩

theorem kube_graph (key : String) (m u a : Instance) :
    depGraph (kubeDecls key m u a) =
      [(cmd "wait-for-master-ssh", [m.res]),
       (cmd "reboot-master", [cmd "wait-for-master-ssh"]),
       (cmd "master-wait-ssh-reboot", [cmd "reboot-master"]),
       (cmd "kube-init", [m.res, cmd "master-wait-ssh-reboot"]),
       (cmd "get-kubeconfig", [cmd "kube-init"]),
       (cmd "get-join-token", [cmd "kube-init"]),
       (cmd "wait-for-worker1-ssh", [u.res, cmd "get-join-token"]),
       (cmd "worker1-join", [cmd "wait-for-worker1-ssh", cmd "get-join-token"]),
       (cmd "wait-for-worker2-ssh", [a.res, cmd "get-join-token"]),
       (cmd "worker2-join", [cmd "wait-for-worker2-ssh", cmd "get-join-token"]),
       (k8sProvider, [cmd "kube-init", cmd "worker1-join", cmd "worker2-join"])] := rfl

theorem kube_edge (key : String) (m u a : Instance) (x y : Resource) (ys : List Resource)
    (hx : (x, ys) ∈ depGraph (kubeDecls key m u a)) (hy : y ∈ ys) :
    DependsTrans (kubeDecls key m u a) x y :=
  Relation.TransGen.single ((depends_iff _ _ _).2 ⟨ys, hx, hy⟩)

/-- Nothing that `worker2-join` reaches through `dependsOn` is `worker1-join`. -/
theorem kube_worker2_not_after_worker1 (key : String) (m u a : Instance) :
    ¬ DependsTrans (kubeDecls key m u a) (cmd "worker2-join") (cmd "worker1-join") := by
  intro h
  have hclosed := dependsTrans_closed (kubeDecls key m u a)
    (fun r => r ∈ [cmd "worker2-join", cmd "wait-for-worker2-ssh", cmd "get-join-token",
      cmd "kube-init", cmd "master-wait-ssh-reboot", cmd "reboot-master",
      cmd "wait-for-master-ssh", m.res, a.res])
    (by
      intro x y hx hxy
      rw [depends_iff, kube_graph] at hxy
      obtain ⟨ys, hmem, hy⟩ := hxy
      simp only [List.mem_cons, Prod.mk.injEq, List.mem_singleton, List.not_mem_nil,
        or_false] at hmem
      rcases hmem with h | h | h | h | h | h | h | h | h | h | h <;>
        obtain ⟨rfl, rfl⟩ := h <;>
        simp [cmd, Instance.res, k8sProvider] at hx hy ⊢ <;>
        (try rcases hy with rfl | rfl) <;> simp_all)
    _ _ h (by simp)
  simp [cmd, Instance.res] at hclosed

/-- Every dependency listed for a command of `SetupKube` is a direct dependency. -/
theorem kube_direct (key : String) (m u a : Instance) (x y : Resource) (ys : List Resource)
    (hx : (x, ys) ∈ depGraph (kubeDecls key m u a)) (hy : y ∈ ys) :
    Depends (kubeDecls key m u a) x y :=
  (depends_iff _ _ _).2 ⟨ys, hx, hy⟩

theorem kube_resources (key : String) (m u a : Instance) :
    (kubeDecls key m u a).map (fun d => d.res) =
      [cmd "wait-for-master-ssh", cmd "reboot-master", cmd "master-wait-ssh-reboot",
       cmd "kube-init", cmd "get-kubeconfig", cmd "get-join-token", cmd "wait-for-worker1-ssh",
       cmd "worker1-join", cmd "wait-for-worker2-ssh", cmd "worker2-join", k8sProvider] := rfl

theorem happy_SetupKube :
    SetupKube happyWorld {} ⟨some ⟨"master-node"⟩, some ⟨"worker-node-1"⟩, some ⟨"worker-node-2"⟩⟩
      = ((SetupKube happyWorld {} launchedNodes).1, .ret (some ⟨"k8s-provider"⟩) none) := rfl

/-! ## Claims -/

/-- C3 (as stated) fails: in a run where every step succeeds the seven bootstrap commands do not
form a linear chain, because `worker2-join` does not depend on `worker1-join`. -/
theorem bootstrapChain_not_linear :
    ¬ LinearChain (newResources {} (SetupKube happyWorld {} launchedNodes).1) bootstrapChain := by
  intro hchain
  have hrun := SetupKube_success happyWorld {} _ _ _ _ _ happy_SetupKube
  rw [hrun.1, newResources_declare] at hchain
  simp only [LinearChain, bootstrapChain, List.chain'_cons, List.chain'_singleton] at hchain
  exact kube_worker2_not_after_worker1 _ _ _ _ hchain.2.2.2.2.2.1

/-- C3 (amended): when `SetupKube` succeeds, the seven bootstrap commands are declared in the
order wait-for-master-ssh, reboot-master, master-wait-ssh-reboot, kube-init, get-join-token,
worker1-join, worker2-join; each of the first six after the first depends, through the
transitive closure of the `dependsOn` lists, on the one right before it; `worker2-join` depends
on `get-join-token` and does not depend on `worker1-join`. -/
theorem bootstrap_chain (w : World) (ctx ctx' : Context) (m u a : Instance) (p : Option Provider)
    (h : SetupKube w ctx ⟨some m, some u, some a⟩ = (ctx', .ret p none)) :
    List.Sublist bootstrapChain ((newResources ctx ctx').map (fun d => d.res)) ∧
    LinearChain (newResources ctx ctx') (bootstrapChain.take 6) ∧
    DependsTrans (newResources ctx ctx') (cmd "worker2-join") (cmd "get-join-token") ∧
    ¬ DependsTrans (newResources ctx ctx') (cmd "worker2-join") (cmd "worker1-join") := by
  have hrun := SetupKube_success w ctx ctx' m u a p h
  rw [hrun.1, newResources_declare]
  refine ⟨?_, ?_, ?_, kube_worker2_not_after_worker1 _ _ _ _⟩
  · rw [kube_resources]
    decide
  · simp only [LinearChain, bootstrapChain, List.take, List.chain'_cons, List.chain'_singleton,
      and_true]
    refine ⟨?_, ?_, ?_, ?_, ?_⟩
    · exact kube_edge _ _ _ _ _ _ [cmd "wait-for-master-ssh"]
        (by rw [kube_graph]; simp [cmd]) (by simp)
    · exact kube_edge _ _ _ _ _ _ [cmd "reboot-master"]
        (by rw [kube_graph]; simp [cmd]) (by simp)
    · exact kube_edge _ _ _ _ _ _ [m.res, cmd "master-wait-ssh-reboot"]
        (by rw [kube_graph]; simp [cmd]) (by simp)
    · exact kube_edge _ _ _ _ _ _ [cmd "kube-init"]
        (by rw [kube_graph]; simp [cmd]) (by simp)
    · exact kube_edge _ _ _ _ _ _ [cmd "wait-for-worker1-ssh", cmd "get-join-token"]
        (by rw [kube_graph]; simp [cmd]) (by simp)
  · exact kube_edge _ _ _ _ _ _ [cmd "wait-for-worker2-ssh", cmd "get-join-token"]
      (by rw [kube_graph]; simp [cmd]) (by simp)

/-- Witness of C3 (amended): the successful run of `SetupKube` in `happyWorld`. -/
theorem bootstrap_chain_witness :
    SetupKube happyWorld {} ⟨some ⟨"master-node"⟩, some ⟨"worker-node-1"⟩, some ⟨"worker-node-2"⟩⟩
      = ((SetupKube happyWorld {} launchedNodes).1, .ret (some ⟨"k8s-provider"⟩) none) ∧
    (List.Sublist bootstrapChain
      ((newResources {} (SetupKube happyWorld {} launchedNodes).1).map (fun d => d.res)) ∧
    LinearChain (newResources {} (SetupKube happyWorld {} launchedNodes).1)
      (bootstrapChain.take 6) ∧
    DependsTrans (newResources {} (SetupKube happyWorld {} launchedNodes).1)
      (cmd "worker2-join") (cmd "get-join-token") ∧
    ¬ DependsTrans (newResources {} (SetupKube happyWorld {} launchedNodes).1)
      (cmd "worker2-join") (cmd "worker1-join")) :=
  ⟨happy_SetupKube, bootstrap_chain happyWorld {} _ _ _ _ _ happy_SetupKube⟩

/-- C8: when `SetupKube` succeeds it has declared, in this order, wait-for-master-ssh,
reboot-master, master-wait-ssh-reboot, kube-init, get-kubeconfig, get-join-token,
wait-for-worker1-ssh, worker1-join, wait-for-worker2-ssh, worker2-join and k8s-provider;
kube-init depends transitively on master-wait-ssh-reboot, reboot-master, wait-for-master-ssh and
the master instance; each of the seven resources declared after kube-init depends transitively
on kube-init; each worker join depends on the SSH wait of its own worker (which depends on that
worker's instance) and on get-join-token; the provider depends on both worker joins. -/
theorem kube_init_gate (w : World) (ctx ctx' : Context) (m u a : Instance) (p : Option Provider)
    (h : SetupKube w ctx ⟨some m, some u, some a⟩ = (ctx', .ret p none)) :
    (newResources ctx ctx').map (fun d => d.res) =
      [cmd "wait-for-master-ssh", cmd "reboot-master", cmd "master-wait-ssh-reboot",
       cmd "kube-init", cmd "get-kubeconfig", cmd "get-join-token", cmd "wait-for-worker1-ssh",
       cmd "worker1-join", cmd "wait-for-worker2-ssh", cmd "worker2-join", k8sProvider] ∧
    (∀ r ∈ [cmd "master-wait-ssh-reboot", cmd "reboot-master", cmd "wait-for-master-ssh", m.res],
      DependsTrans (newResources ctx ctx') (cmd "kube-init") r) ∧
    (∀ r ∈ [cmd "get-kubeconfig", cmd "get-join-token", cmd "wait-for-worker1-ssh",
        cmd "worker1-join", cmd "wait-for-worker2-ssh", cmd "worker2-join", k8sProvider],
      DependsTrans (newResources ctx ctx') r (cmd "kube-init")) ∧
    (Depends (newResources ctx ctx') (cmd "worker1-join") (cmd "wait-for-worker1-ssh") ∧
      Depends (newResources ctx ctx') (cmd "wait-for-worker1-ssh") u.res ∧
      Depends (newResources ctx ctx') (cmd "worker1-join") (cmd "get-join-token")) ∧
    (Depends (newResources ctx ctx') (cmd "worker2-join") (cmd "wait-for-worker2-ssh") ∧
      Depends (newResources ctx ctx') (cmd "wait-for-worker2-ssh") a.res ∧
      Depends (newResources ctx ctx') (cmd "worker2-join") (cmd "get-join-token")) ∧
    (Depends (newResources ctx ctx') k8sProvider (cmd "worker1-join") ∧
      Depends (newResources ctx ctx') k8sProvider (cmd "worker2-join")) := by
  have hrun := SetupKube_success w ctx ctx' m u a p h
  rw [hrun.1, newResources_declare]
  generalize hkey : fileText w "./pulumi_key" = key
  have e1 : Depends (kubeDecls key m u a) (cmd "reboot-master") (cmd "wait-for-master-ssh") :=
    kube_direct _ _ _ _ _ _ [cmd "wait-for-master-ssh"] (by rw [kube_graph]; simp [cmd]) (by simp)
  have e2 : Depends (kubeDecls key m u a) (cmd "master-wait-ssh-reboot") (cmd "reboot-master") :=
    kube_direct _ _ _ _ _ _ [cmd "reboot-master"] (by rw [kube_graph]; simp [cmd]) (by simp)
  have e3 : Depends (kubeDecls key m u a) (cmd "kube-init") (cmd "master-wait-ssh-reboot") :=
    kube_direct _ _ _ _ _ _ [m.res, cmd "master-wait-ssh-reboot"]
      (by rw [kube_graph]; simp [cmd]) (by simp)
  have e3m : Depends (kubeDecls key m u a) (cmd "kube-init") m.res :=
    kube_direct _ _ _ _ _ _ [m.res, cmd "master-wait-ssh-reboot"]
      (by rw [kube_graph]; simp [cmd]) (by simp)
  have e4 : Depends (kubeDecls key m u a) (cmd "get-kubeconfig") (cmd "kube-init") :=
    kube_direct _ _ _ _ _ _ [cmd "kube-init"] (by rw [kube_graph]; simp [cmd]) (by simp)
  have e5 : Depends (kubeDecls key m u a) (cmd "get-join-token") (cmd "kube-init") :=
    kube_direct _ _ _ _ _ _ [cmd "kube-init"] (by rw [kube_graph]; simp [cmd]) (by simp)
  have e6 : Depends (kubeDecls key m u a) (cmd "wait-for-worker1-ssh") (cmd "get-join-token") :=
    kube_direct _ _ _ _ _ _ [u.res, cmd "get-join-token"]
      (by rw [kube_graph]; simp [cmd]) (by simp)
  have e6u : Depends (kubeDecls key m u a) (cmd "wait-for-worker1-ssh") u.res :=
    kube_direct _ _ _ _ _ _ [u.res, cmd "get-join-token"]
      (by rw [kube_graph]; simp [cmd]) (by simp)
  have e7 : Depends (kubeDecls key m u a) (cmd "worker1-join") (cmd "wait-for-worker1-ssh") :=
    kube_direct _ _ _ _ _ _ [cmd "wait-for-worker1-ssh", cmd "get-join-token"]
      (by rw [kube_graph]; simp [cmd]) (by simp)
  have e7t : Depends (kubeDecls key m u a) (cmd "worker1-join") (cmd "get-join-token") :=
    kube_direct _ _ _ _ _ _ [cmd "wait-for-worker1-ssh", cmd "get-join-token"]
      (by rw [kube_graph]; simp [cmd]) (by simp)
  have e8 : Depends (kubeDecls key m u a) (cmd "wait-for-worker2-ssh") (cmd "get-join-token") :=
    kube_direct _ _ _ _ _ _ [a.res, cmd "get-join-token"]
      (by rw [kube_graph]; simp [cmd]) (by simp)
  have e8a : Depends (kubeDecls key m u a) (cmd "wait-for-worker2-ssh") a.res :=
    kube_direct _ _ _ _ _ _ [a.res, cmd "get-join-token"]
      (by rw [kube_graph]; simp [cmd]) (by simp)
  have e9 : Depends (kubeDecls key m u a) (cmd "worker2-join") (cmd "wait-for-worker2-ssh") :=
    kube_direct _ _ _ _ _ _ [cmd "wait-for-worker2-ssh", cmd "get-join-token"]
      (by rw [kube_graph]; simp [cmd]) (by simp)
  have e9t : Depends (kubeDecls key m u a) (cmd "worker2-join") (cmd "get-join-token") :=
    kube_direct _ _ _ _ _ _ [cmd "wait-for-worker2-ssh", cmd "get-join-token"]
      (by rw [kube_graph]; simp [cmd]) (by simp)
  have e10 : Depends (kubeDecls key m u a) k8sProvider (cmd "kube-init") :=
    kube_direct _ _ _ _ _ _ [cmd "kube-init", cmd "worker1-join", cmd "worker2-join"]
      (by rw [kube_graph]; simp [cmd]) (by simp)
  have e10a : Depends (kubeDecls key m u a) k8sProvider (cmd "worker1-join") :=
    kube_direct _ _ _ _ _ _ [cmd "kube-init", cmd "worker1-join", cmd "worker2-join"]
      (by rw [kube_graph]; simp [cmd]) (by simp)
  have e10b : Depends (kubeDecls key m u a) k8sProvider (cmd "worker2-join") :=
    kube_direct _ _ _ _ _ _ [cmd "kube-init", cmd "worker1-join", cmd "worker2-join"]
      (by rw [kube_graph]; simp [cmd]) (by simp)
  have t5 : DependsTrans (kubeDecls key m u a) (cmd "get-join-token") (cmd "kube-init") :=
    Relation.TransGen.single e5
  refine ⟨kube_resources _ _ _ _, ?_, ?_, ⟨e7, e6u, e7t⟩, ⟨e9, e8a, e9t⟩, ⟨e10a, e10b⟩⟩
  · intro r hr
    simp only [List.mem_cons, List.mem_singleton, List.not_mem_nil, or_false] at hr
    rcases hr with rfl | rfl | rfl | rfl
    · exact Relation.TransGen.single e3
    · exact Relation.TransGen.tail (Relation.TransGen.single e3) e2
    · exact Relation.TransGen.tail (Relation.TransGen.tail (Relation.TransGen.single e3) e2) e1
    · exact Relation.TransGen.single e3m
  · intro r hr
    simp only [List.mem_cons, List.mem_singleton, List.not_mem_nil, or_false] at hr
    rcases hr with rfl | rfl | rfl | rfl | rfl | rfl | rfl
    · exact Relation.TransGen.single e4
    · exact t5
    · exact Relation.TransGen.head e6 t5
    · exact Relation.TransGen.head e7t t5
    · exact Relation.TransGen.head e8 t5
    · exact Relation.TransGen.head e9t t5
    · exact Relation.TransGen.single e10

/-- Witness of C8: the successful run of `SetupKube` in `happyWorld`. -/
theorem kube_init_gate_witness :
    SetupKube happyWorld {} ⟨some ⟨"master-node"⟩, some ⟨"worker-node-1"⟩, some ⟨"worker-node-2"⟩⟩
      = ((SetupKube happyWorld {} launchedNodes).1, .ret (some ⟨"k8s-provider"⟩) none) ∧
    ((newResources {} (SetupKube happyWorld {} launchedNodes).1).map (fun d => d.res) =
      [cmd "wait-for-master-ssh", cmd "reboot-master", cmd "master-wait-ssh-reboot",
       cmd "kube-init", cmd "get-kubeconfig", cmd "get-join-token", cmd "wait-for-worker1-ssh",
       cmd "worker1-join", cmd "wait-for-worker2-ssh", cmd "worker2-join", k8sProvider] ∧
    (∀ r ∈ [cmd "master-wait-ssh-reboot", cmd "reboot-master", cmd "wait-for-master-ssh", (Instance.res ⟨"master-node"⟩)],
      DependsTrans (newResources {} (SetupKube happyWorld {} launchedNodes).1) (cmd "kube-init") r) ∧
    (∀ r ∈ [cmd "get-kubeconfig", cmd "get-join-token", cmd "wait-for-worker1-ssh",
        cmd "worker1-join", cmd "wait-for-worker2-ssh", cmd "worker2-join", k8sProvider],
      DependsTrans (newResources {} (SetupKube happyWorld {} launchedNodes).1) r (cmd "kube-init")) ∧
    (Depends (newResources {} (SetupKube happyWorld {} launchedNodes).1) (cmd "worker1-join") (cmd "wait-for-worker1-ssh") ∧
      Depends (newResources {} (SetupKube happyWorld {} launchedNodes).1) (cmd "wait-for-worker1-ssh") (Instance.res ⟨"worker-node-1"⟩) ∧
      Depends (newResources {} (SetupKube happyWorld {} launchedNodes).1) (cmd "worker1-join") (cmd "get-join-token")) ∧
    (Depends (newResources {} (SetupKube happyWorld {} launchedNodes).1) (cmd "worker2-join") (cmd "wait-for-worker2-ssh") ∧
      Depends (newResources {} (SetupKube happyWorld {} launchedNodes).1) (cmd "wait-for-worker2-ssh") (Instance.res ⟨"worker-node-2"⟩) ∧
      Depends (newResources {} (SetupKube happyWorld {} launchedNodes).1) (cmd "worker2-join") (cmd "get-join-token")) ∧
    (Depends (newResources {} (SetupKube happyWorld {} launchedNodes).1) k8sProvider (cmd "worker1-join") ∧
      Depends (newResources {} (SetupKube happyWorld {} launchedNodes).1) k8sProvider (cmd "worker2-join"))) :=
  ⟨happy_SetupKube, kube_init_gate happyWorld {} _ _ _ _ _ happy_SetupKube⟩

/-- C4 (code evaluated at a successful run with three distinct nodes): `worker1-join` connects to
the Ubuntu worker, `wait-for-worker2-ssh` connects to the AlmaLinux worker, but `worker2-join` is
declared with `worker1Conn`: its host is the address of the Ubuntu worker, not of the AlmaLinux
worker. -/
theorem worker2_join_connects_to_worker1 :
    hostOf (SetupKube happyWorld {} launchedNodes).1.resources (cmd "worker1-join")
      = some (Instance.Ipv4Address ⟨"worker-node-1"⟩) ∧
    hostOf (SetupKube happyWorld {} launchedNodes).1.resources (cmd "wait-for-worker2-ssh")
      = some (Instance.Ipv4Address ⟨"worker-node-2"⟩) ∧
    hostOf (SetupKube happyWorld {} launchedNodes).1.resources (cmd "worker2-join")
      = some (Instance.Ipv4Address ⟨"worker-node-1"⟩) ∧
    hostOf (SetupKube happyWorld {} launchedNodes).1.resources (cmd "worker2-join")
      ≠ some (Instance.Ipv4Address ⟨"worker-node-2"⟩) ∧
    hostOf (SetupKube happyWorld {} launchedNodes).1.resources (cmd "worker2-join")
      ≠ hostOf (SetupKube happyWorld {} launchedNodes).1.resources (cmd "wait-for-worker2-ssh") := by
  have h1 : hostOf (SetupKube happyWorld {} launchedNodes).1.resources (cmd "worker1-join")
      = some (Instance.Ipv4Address ⟨"worker-node-1"⟩) := rfl
  have h2 : hostOf (SetupKube happyWorld {} launchedNodes).1.resources
      (cmd "wait-for-worker2-ssh") = some (Instance.Ipv4Address ⟨"worker-node-2"⟩) := rfl
  have h3 : hostOf (SetupKube happyWorld {} launchedNodes).1.resources (cmd "worker2-join")
      = some (Instance.Ipv4Address ⟨"worker-node-1"⟩) := rfl
  have hne : some (Instance.Ipv4Address ⟨"worker-node-1"⟩)
      ≠ some (Instance.Ipv4Address ⟨"worker-node-2"⟩) := by
    simp [Instance.Ipv4Address, Instance.res]
  refine ⟨h1, h2, h3, ?_, ?_⟩
  · rw [h3]; exact hne
  · rw [h3, h2]; exact hne

theorem resolve_str (ρ : Resource → String → String) (s : String) :
    (Output.str s).resolve ρ = some s := by
  simp [Output.resolve]

theorem resolve_attr (ρ : Resource → String → String) (r : Resource) (a : String) :
    (Output.attr r a).resolve ρ = some (ρ r a) := by
  simp [Output.resolve]

theorem resolve_sprintf (ρ : Resource → String → String) (format : String) (args : List Output) :
    (Output.sprintf format args).resolve ρ = (Output.resolveAll ρ args).bind (Sprintf format) := by
  simp [Output.resolve]

theorem resolveAll_nil (ρ : Resource → String → String) : Output.resolveAll ρ [] = some [] := by
  simp [Output.resolveAll]

theorem resolveAll_cons (ρ : Resource → String → String) (a : Output) (rest : List Output) :
    Output.resolveAll ρ (a :: rest) =
      (Output.resolve ρ a).bind (fun s => (Output.resolveAll ρ rest).map (fun l => s :: l)) := by
  simp [Output.resolveAll]

theorem resolve_k3sUrl (ρ : Resource → String → String) (m : Instance) :
    (k3sUrl m).resolve ρ = some ("https://" ++ ρ m.res "ipv4Address" ++ ":6443") := by
  have hfmt : "https://%s:6443" = "https://" ++ "%s" ++ ":6443" := by decide
  simp only [k3sUrl, Instance.Ipv4Address, resolve_sprintf, resolveAll_cons, resolveAll_nil,
    resolve_attr, Option.bind_some, Option.some_bind, Option.map_some']
  rw [hfmt]
  exact Sprintf_one _ _ _ (by decide) (by decide)

/-- The worker join script around its two verbs. -/
theorem joinFormat_split :
    worker1JoinFormat =
      String.join ["\n", "\t\t\tset -e\n", "\t\t\techo \"Installing K3s on worker (Ubuntu)...\"\n",
        "\t\t\t# We pass the master URL and Token as environment variables\n",
        "\t\t\tcurl -sfL https://get.k3s.io | "] ++ "K3S_URL=" ++ "%s" ++ " K3S_TOKEN=" ++ "%s"
        ++ (" sh -" ++ "\n\t\t") := by
  decide

theorem resolve_join (ρ : Resource → String → String) (m : Instance) (token : Resource) :
    (Output.sprintf worker1JoinFormat [k3sUrl m, token.Stdout]).resolve ρ =
      some (String.join ["\n", "\t\t\tset -e\n",
          "\t\t\techo \"Installing K3s on worker (Ubuntu)...\"\n",
          "\t\t\t# We pass the master URL and Token as environment variables\n",
          "\t\t\tcurl -sfL https://get.k3s.io | "]
        ++ ("K3S_URL=https://" ++ ρ m.res "ipv4Address" ++ ":6443 K3S_TOKEN=" ++ ρ token "stdout"
          ++ " sh -") ++ "\n\t\t") := by
  have h1 : "K3S_URL=https://" = "K3S_URL=" ++ "https://" := by decide
  have h2 : ":6443 K3S_TOKEN=" = ":6443" ++ " K3S_TOKEN=" := by decide
  simp only [resolve_sprintf, resolveAll_cons, resolveAll_nil, resolve_k3sUrl, Resource.Stdout,
    resolve_attr, Option.bind_some, Option.some_bind, Option.map_some']
  rw [joinFormat_split, Sprintf_two _ _ _ _ _ (by decide) (by decide) (by decide), h1, h2]
  simp only [String.append_assoc]

theorem joinFormats_equal : worker2JoinFormat = worker1JoinFormat := by
  decide

theorem kube_create_worker1 (key : String) (m u a : Instance) :
    (declOf (cmd "worker1-join") (kubeDecls key m u a)).bind (fun d => d.args.create)
      = some (.sprintf worker1JoinFormat [k3sUrl m, (cmd "get-join-token").Stdout]) := rfl

theorem kube_create_worker2 (key : String) (m u a : Instance) :
    (declOf (cmd "worker2-join") (kubeDecls key m u a)).bind (fun d => d.args.create)
      = some (.sprintf worker2JoinFormat [k3sUrl m, (cmd "get-join-token").Stdout]) := rfl

theorem kube_create_kubeconfig (key : String) (m u a : Instance) :
    (declOf (cmd "get-kubeconfig") (kubeDecls key m u a)).bind (fun d => d.args.create)
      = some (.sprintf "sudo cat /etc/rancher/k3s/k3s.yaml | sed 's/127.0.0.1/%s/'"
          [m.Ipv4Address]) := rfl

/-- C10: when `SetupKube` succeeds, for every resolution of the outputs, with `ip` the IPv4
address of the master instance and `t` the stdout of get-join-token, the Create text of
worker1-join contains `K3S_URL=https://ip:6443 K3S_TOKEN=t sh -`, the Create text of worker2-join
is the same text, every command on the master connection has that master's address as host, and
the Create text of get-kubeconfig replaces 127.0.0.1 by the same `ip`. -/
theorem join_commands_env (w : World) (ctx ctx' : Context) (m u a : Instance)
    (p : Option Provider) (h : SetupKube w ctx ⟨some m, some u, some a⟩ = (ctx', .ret p none))
    (ρ : Resource → String → String) :
    (∃ pre post : String,
      createText ρ (newResources ctx ctx') (cmd "worker1-join") =
        some (pre ++ ("K3S_URL=https://" ++ ρ m.res "ipv4Address" ++ ":6443 K3S_TOKEN="
          ++ ρ (cmd "get-join-token") "stdout" ++ " sh -") ++ post)) ∧
    createText ρ (newResources ctx ctx') (cmd "worker2-join") =
      createText ρ (newResources ctx ctx') (cmd "worker1-join") ∧
    (∀ r ∈ [cmd "wait-for-master-ssh", cmd "reboot-master", cmd "master-wait-ssh-reboot",
        cmd "kube-init", cmd "get-kubeconfig", cmd "get-join-token"],
      hostOf (newResources ctx ctx') r = some m.Ipv4Address) ∧
    m.Ipv4Address.resolve ρ = some (ρ m.res "ipv4Address") ∧
    createText ρ (newResources ctx ctx') (cmd "get-kubeconfig") =
      some ("sudo cat /etc/rancher/k3s/k3s.yaml | sed 's/127.0.0.1/" ++ ρ m.res "ipv4Address"
        ++ "/'") := by
  have hrun := SetupKube_success w ctx ctx' m u a p h
  rw [hrun.1, newResources_declare]
  generalize fileText w "./pulumi_key" = key
  obtain ⟨pre, post, hw1⟩ : ∃ pre post : String,
      (Output.sprintf worker1JoinFormat [k3sUrl m, (cmd "get-join-token").Stdout]).resolve ρ =
        some (pre ++ ("K3S_URL=https://" ++ ρ m.res "ipv4Address" ++ ":6443 K3S_TOKEN="
          ++ ρ (cmd "get-join-token") "stdout" ++ " sh -") ++ post) :=
    ⟨_, _, resolve_join ρ m (cmd "get-join-token")⟩
  refine ⟨⟨pre, post, ?_⟩, ?_, ?_, ?_, ?_⟩
  · simp only [createText]
    rw [kube_create_worker1, Option.some_bind]
    exact hw1
  · simp only [createText]
    rw [kube_create_worker1, kube_create_worker2, joinFormats_equal]
  · intro r hr
    simp only [List.mem_cons, List.mem_singleton, List.not_mem_nil, or_false] at hr
    rcases hr with rfl | rfl | rfl | rfl | rfl | rfl <;> rfl
  · exact resolve_attr _ _ _
  · have hfmt : "sudo cat /etc/rancher/k3s/k3s.yaml | sed 's/127.0.0.1/%s/'"
        = "sudo cat /etc/rancher/k3s/k3s.yaml | sed 's/127.0.0.1/" ++ "%s" ++ "/'" := by decide
    simp only [createText]
    rw [kube_create_kubeconfig, Option.some_bind]
    simp only [Instance.Ipv4Address, resolve_sprintf, resolveAll_cons, resolveAll_nil,
      resolve_attr, Option.bind_some, Option.some_bind, Option.map_some']
    rw [hfmt]
    exact Sprintf_one _ _ _ (by decide) (by decide)

/-- Witness of C10: the successful run in `happyWorld`, outputs resolved by `sampleResolution`. -/
theorem join_commands_env_witness :
    SetupKube happyWorld {} ⟨some ⟨"master-node"⟩, some ⟨"worker-node-1"⟩, some ⟨"worker-node-2"⟩⟩
      = ((SetupKube happyWorld {} launchedNodes).1, .ret (some ⟨"k8s-provider"⟩) none) ∧
    ((∃ pre post : String,
      createText sampleResolution (newResources {} (SetupKube happyWorld {} launchedNodes).1) (cmd "worker1-join") =
        some (pre ++ ("K3S_URL=https://" ++ sampleResolution (Instance.res ⟨"master-node"⟩) "ipv4Address" ++ ":6443 K3S_TOKEN="
          ++ sampleResolution (cmd "get-join-token") "stdout" ++ " sh -") ++ post)) ∧
    createText sampleResolution (newResources {} (SetupKube happyWorld {} launchedNodes).1) (cmd "worker2-join") =
      createText sampleResolution (newResources {} (SetupKube happyWorld {} launchedNodes).1) (cmd "worker1-join") ∧
    (∀ r ∈ [cmd "wait-for-master-ssh", cmd "reboot-master", cmd "master-wait-ssh-reboot",
        cmd "kube-init", cmd "get-kubeconfig", cmd "get-join-token"],
      hostOf (newResources {} (SetupKube happyWorld {} launchedNodes).1) r = some (Instance.Ipv4Address ⟨"master-node"⟩)) ∧
    (Instance.Ipv4Address ⟨"master-node"⟩).resolve sampleResolution = some (sampleResolution (Instance.res ⟨"master-node"⟩) "ipv4Address") ∧
    createText sampleResolution (newResources {} (SetupKube happyWorld {} launchedNodes).1) (cmd "get-kubeconfig") =
      some ("sudo cat /etc/rancher/k3s/k3s.yaml | sed 's/127.0.0.1/" ++ sampleResolution (Instance.res ⟨"master-node"⟩) "ipv4Address"
        ++ "/'")) :=
  ⟨happy_SetupKube, join_commands_env happyWorld {} _ _ _ _ _ happy_SetupKube sampleResolution⟩

theorem LaunchVMs_success_key (w : World) (ctx ctx' : Context) (nodes : IncusNodes)
    (h : LaunchVMs w ctx = (ctx', nodes, none)) :
    ∃ pubKey, w.readFile "./pulumi_key.pub" = .ok pubKey ∧
      ctx' = ctx.declare (launchDecls pubKey) ∧ nodes = launchedNodes := by
  have hs := LaunchVMs_success w ctx ctx' nodes h
  rw [LaunchVMs_eq] at h
  cases hf : firstFailure w (launchSteps (fileText w "./pulumi_key.pub")) with
  | some q => simp [hf] at h
  | none =>
    have hall := (firstFailure_eq_none _ _).1 hf
    have hread := hall (.read "./pulumi_key.pub") (by simp [launchSteps])
    cases hrf : w.readFile "./pulumi_key.pub" with
    | error e => simp [Step.err, hrf] at hread
    | ok pubKey =>
      refine ⟨pubKey, rfl, ?_, hs.2⟩
      have hk : fileText w "./pulumi_key.pub" = pubKey := by simp [fileText, hrf]
      rw [← hk]
      exact hs.1

theorem happy_LaunchVMs :
    LaunchVMs happyWorld {} = ((LaunchVMs happyWorld {}).1, launchedNodes, none) := rfl

/-- C7: when `LaunchVMs` succeeds, the public key was read from `./pulumi_key.pub`; kube-master
(image archlinux/cloud) carries the Arch template, kube-worker-1 (image ubuntu/25.04/cloud) the
Ubuntu template and kube-worker-2 (image almalinux/9/cloud) the AlmaLinux template as
`user.user-data`, each formatted with that same key; and the returned nodes are the master,
Ubuntu and AlmaLinux instances in this order. -/
theorem cloud_init_per_distribution (w : World) (ctx ctx' : Context) (nodes : IncusNodes)
    (h : LaunchVMs w ctx = (ctx', nodes, none)) :
    ∃ pubKey, w.readFile "./pulumi_key.pub" = .ok pubKey ∧
      Launched (newResources ctx ctx') (vm "master-node") "kube-master" "images:archlinux/cloud"
        (.sprintf archCloudInitTemplate [.str pubKey]) ∧
      Launched (newResources ctx ctx') (vm "worker-node-1") "kube-worker-1"
        "images:ubuntu/25.04/cloud" (.sprintf ubuntuCloudInitTemplate [.str pubKey]) ∧
      Launched (newResources ctx ctx') (vm "worker-node-2") "kube-worker-2"
        "images:almalinux/9/cloud" (.sprintf almaCloudInitTemplate [.str pubKey]) ∧
      nodes.MasterArchNode = some ⟨"master-node"⟩ ∧
      nodes.WorkerUbuntuNode = some ⟨"worker-node-1"⟩ ∧
      nodes.WorkerAlmaNode = some ⟨"worker-node-2"⟩ := by
  obtain ⟨pubKey, hkey, hctx, hnodes⟩ := LaunchVMs_success_key w ctx ctx' nodes h
  rw [hctx, newResources_declare, hnodes]
  exact ⟨pubKey, hkey, ⟨_, rfl, rfl, rfl, rfl⟩, ⟨_, rfl, rfl, rfl, rfl⟩, ⟨_, rfl, rfl, rfl, rfl⟩,
    rfl, rfl, rfl⟩

/-- Witness of C7: the successful run of `LaunchVMs` in `happyWorld`. -/
theorem cloud_init_per_distribution_witness :
    LaunchVMs happyWorld {} = ((LaunchVMs happyWorld {}).1, launchedNodes, none) ∧
    (∃ pubKey, happyWorld.readFile "./pulumi_key.pub" = .ok pubKey ∧
      Launched (newResources {} (LaunchVMs happyWorld {}).1) (vm "master-node") "kube-master" "images:archlinux/cloud"
        (.sprintf archCloudInitTemplate [.str pubKey]) ∧
      Launched (newResources {} (LaunchVMs happyWorld {}).1) (vm "worker-node-1") "kube-worker-1"
        "images:ubuntu/25.04/cloud" (.sprintf ubuntuCloudInitTemplate [.str pubKey]) ∧
      Launched (newResources {} (LaunchVMs happyWorld {}).1) (vm "worker-node-2") "kube-worker-2"
        "images:almalinux/9/cloud" (.sprintf almaCloudInitTemplate [.str pubKey]) ∧
      launchedNodes.MasterArchNode = some ⟨"master-node"⟩ ∧
      launchedNodes.WorkerUbuntuNode = some ⟨"worker-node-1"⟩ ∧
      launchedNodes.WorkerAlmaNode = some ⟨"worker-node-2"⟩) :=
  ⟨happy_LaunchVMs, cloud_init_per_distribution happyWorld {} _ _ happy_LaunchVMs⟩

theorem launch_ufw_edge (pubKey : String) : Depends (launchDecls pubKey) ufwRes netRes :=
  ⟨firewallRuleDecl kubeNetworkDecl.res, by simp [launchDecls], rfl, by
    simp [firewallRuleDecl, kubeNetworkDecl, netRes]⟩

theorem launch_vm_edge (pubKey : String) (d : Decl) (hd : d ∈ launchDecls pubKey)
    (hdep : d.dependsOn = [ufwRes]) : Depends (launchDecls pubKey) d.res ufwRes :=
  ⟨d, hd, rfl, by simp [hdep]⟩

/-- C9: when `LaunchVMs` succeeds, the storage pool and the bridge network are declared; the
master and worker 1 have exactly the devices `root` (disk, path `/`, pool = name of the storage
pool) and `eth0` (nic, network = name of the bridge network); worker 2 has these two and one
more, the disk `agent` with source `agent:config`; each of the three is a non-ephemeral
`virtual-machine` with `limits.cpu` 2 and `limits.memory` 2GB and depends on the ufw rule, which
depends on the bridge network. -/
theorem shared_vm_configuration (w : World) (ctx ctx' : Context) (nodes : IncusNodes)
    (h : LaunchVMs w ctx = (ctx', nodes, none)) :
    ((declOf poolRes (newResources ctx ctx')).bind (fun d => d.args.name)
      = some (.str "k8s-pool")) ∧
    ((declOf netRes (newResources ctx ctx')).bind (fun d => d.args.type)
      = some (.str "bridge")) ∧
    BaseVM (newResources ctx ctx') (vm "master-node") [] ∧
    BaseVM (newResources ctx ctx') (vm "worker-node-1") [] ∧
    BaseVM (newResources ctx ctx') (vm "worker-node-2")
      [{ name := .str "agent", type := .str "disk",
         properties := [("source", .str "agent:config")] }] ∧
    Depends (newResources ctx ctx') ufwRes netRes := by
  obtain ⟨pubKey, _, hctx, _⟩ := LaunchVMs_success_key w ctx ctx' nodes h
  rw [hctx, newResources_declare]
  refine ⟨rfl, rfl, ⟨_, rfl, rfl, rfl, rfl, rfl, rfl, ?_⟩, ⟨_, rfl, rfl, rfl, rfl, rfl, rfl, ?_⟩,
    ⟨_, rfl, rfl, rfl, rfl, rfl, rfl, ?_⟩, launch_ufw_edge pubKey⟩
  · exact launch_vm_edge pubKey
      (masterNodeDecl (.sprintf archCloudInitTemplate [.str pubKey])
        (vmDevices storagePoolDecl.res kubeNetworkDecl.res) (firewallRuleDecl kubeNetworkDecl.res).res)
      (by simp [launchDecls]) rfl
  · exact launch_vm_edge pubKey
      (workerNode1Decl (.sprintf ubuntuCloudInitTemplate [.str pubKey])
        (vmDevices storagePoolDecl.res kubeNetworkDecl.res) (firewallRuleDecl kubeNetworkDecl.res).res)
      (by simp [launchDecls]) rfl
  · exact launch_vm_edge pubKey
      (workerNode2Decl (.sprintf almaCloudInitTemplate [.str pubKey]) storagePoolDecl.res
        kubeNetworkDecl.res (firewallRuleDecl kubeNetworkDecl.res).res)
      (by simp [launchDecls]) rfl

/-- Witness of C9: the successful run of `LaunchVMs` in `happyWorld`. -/
theorem shared_vm_configuration_witness :
    LaunchVMs happyWorld {} = ((LaunchVMs happyWorld {}).1, launchedNodes, none) ∧
    (((declOf poolRes (newResources {} (LaunchVMs happyWorld {}).1)).bind (fun d => d.args.name)
      = some (.str "k8s-pool")) ∧
    ((declOf netRes (newResources {} (LaunchVMs happyWorld {}).1)).bind (fun d => d.args.type)
      = some (.str "bridge")) ∧
    BaseVM (newResources {} (LaunchVMs happyWorld {}).1) (vm "master-node") [] ∧
    BaseVM (newResources {} (LaunchVMs happyWorld {}).1) (vm "worker-node-1") [] ∧
    BaseVM (newResources {} (LaunchVMs happyWorld {}).1) (vm "worker-node-2")
      [{ name := .str "agent", type := .str "disk",
         properties := [("source", .str "agent:config")] }] ∧
    Depends (newResources {} (LaunchVMs happyWorld {}).1) ufwRes netRes) :=
  ⟨happy_LaunchVMs, shared_vm_configuration happyWorld {} _ _ happy_LaunchVMs⟩

/-- C6: on a run of the program that returns nil (every run in which the three stages succeed
does), given that `NginxDeployment` itself exports nothing, the stack outputs are exactly
masterIp, worker1Ip, worker2Ip and name, bound to the IPv4 addresses of the master, Ubuntu and
AlmaLinux instances and to the metadata name of the deployment that `NginxDeployment` returned
for the provider `k8s-provider`; no key occurs twice. -/
theorem stack_exports (w : World)
    (nginx : Context → Option Provider → Context × Outcome (Option Deployment))
    (hframe : ∀ ctx p, (nginx ctx p).1.exports = ctx.exports)
    (hrun : (main w nginx {}).2 = .ret () none) :
    ∃ (ctx : Context) (d : Deployment) (e : Option Error),
      (nginx ctx (some ⟨"k8s-provider"⟩)).2 = .ret (some d) e ∧
      (main w nginx {}).1.exports =
        [("masterIp", Instance.Ipv4Address ⟨"master-node"⟩),
         ("worker1Ip", Instance.Ipv4Address ⟨"worker-node-1"⟩),
         ("worker2Ip", Instance.Ipv4Address ⟨"worker-node-2"⟩),
         ("name", d.MetadataName)] ∧
      ((main w nginx {}).1.exports.map Prod.fst).Nodup := by
  rcases hL : LaunchVMs w {} with ⟨c1, nodes, err⟩
  cases err with
  | some e0 => simp [main, hL] at hrun
  | none =>
    obtain ⟨hc1, hnodes⟩ := LaunchVMs_success w {} c1 nodes hL
    subst hnodes
    rcases hK : SetupKube w (Export (Export (Export c1 "masterIp"
        (Instance.Ipv4Address ⟨"master-node"⟩)) "worker1Ip"
        (Instance.Ipv4Address ⟨"worker-node-1"⟩)) "worker2Ip"
        (Instance.Ipv4Address ⟨"worker-node-2"⟩))
        ⟨some ⟨"master-node"⟩, some ⟨"worker-node-1"⟩, some ⟨"worker-node-2"⟩⟩ with ⟨c2, out⟩
    cases out with
    | panic => simp [main, hL, launchedNodes, hK] at hrun
    | ret p err =>
      cases err with
      | some e1 => simp [main, hL, launchedNodes, hK] at hrun
      | none =>
        obtain ⟨hc2, hp⟩ := SetupKube_success w _ c2 _ _ _ p hK
        subst hp
        have hfr := hframe c2 (some ⟨"k8s-provider"⟩)
        rcases hN : nginx c2 (some ⟨"k8s-provider"⟩) with ⟨c3, out3⟩
        rw [hN] at hfr
        cases out3 with
        | panic => simp [main, hL, launchedNodes, hK, hN] at hrun
        | ret dep e3 =>
          cases dep with
          | none => simp [main, hL, launchedNodes, hK, hN] at hrun
          | some d =>
            refine ⟨c2, d, e3, by rw [hN], ?_⟩
            have hex : c3.exports =
                [("masterIp", Instance.Ipv4Address ⟨"master-node"⟩),
                 ("worker1Ip", Instance.Ipv4Address ⟨"worker-node-1"⟩),
                 ("worker2Ip", Instance.Ipv4Address ⟨"worker-node-2"⟩)] := by
              simp only [] at hfr
              rw [hfr, hc2, hc1]
              rfl
            have hmain : main w nginx {} = (Export c3 "name" d.MetadataName, .ret () none) := by
              simp [main, hL, launchedNodes, hK, hN]
            rw [hmain]
            simp [Export, hex]

/-- Witness of C6: the run in `happyWorld` with a deployment stage that succeeds. -/
theorem stack_exports_witness :
    (∀ ctx p, (nginxOk ctx p).1.exports = ctx.exports) ∧
    (main happyWorld nginxOk {}).2 = .ret () none ∧
    ∃ (ctx : Context) (d : Deployment) (e : Option Error),
      (nginxOk ctx (some ⟨"k8s-provider"⟩)).2 = .ret (some d) e ∧
      (main happyWorld nginxOk {}).1.exports =
        [("masterIp", Instance.Ipv4Address ⟨"master-node"⟩),
         ("worker1Ip", Instance.Ipv4Address ⟨"worker-node-1"⟩),
         ("worker2Ip", Instance.Ipv4Address ⟨"worker-node-2"⟩),
         ("name", d.MetadataName)] ∧
      ((main happyWorld nginxOk {}).1.exports.map Prod.fst).Nodup :=
  ⟨fun _ _ => rfl, rfl, stack_exports happyWorld nginxOk (fun _ _ => rfl) rfl⟩

/-- C2 (code evaluated where the first two stages succeed and `NginxDeployment` returns an
error): with a non-nil deployment the program exports `name` and returns nil, not the error;
with a nil deployment it panics on `deployment.Metadata`. -/
theorem deployment_error_ignored :
    (nginxFails {} none).2 = .ret (some ⟨"nginx"⟩) (some "deployment failed") ∧
    (main happyWorld nginxFails {}).2 = .ret () none ∧
    (main happyWorld nginxFails {}).1.exports.map Prod.fst
      = ["masterIp", "worker1Ip", "worker2Ip", "name"] ∧
    (nginxFailsNil {} none).2 = .ret none (some "deployment failed") ∧
    (main happyWorld nginxFailsNil {}).2 = .panic :=
  ⟨rfl, rfl, rfl, rfl, rfl⟩

/-- C1 (as stated) fails at the last step of `SetupKube`: when only the registration of
`k8s-provider` is rejected and the constructor hands back a nil pointer with its error,
`SetupKube` returns that nil pointer, not an empty non-nil provider. -/
theorem provider_failure_returns_nil :
    FirstError providerRejected
      (kubeSteps (fileText providerRejected "./pulumi_key") ⟨"master-node"⟩ ⟨"worker-node-1"⟩
        ⟨"worker-node-2"⟩) 11 "rejected" ∧
    (SetupKube providerRejected {} launchedNodes).2 = .ret none (some "rejected") ∧
    (SetupKube providerRejected {} launchedNodes).2 ≠ .ret (some {}) (some "rejected") := by
  have hret : (SetupKube providerRejected {} launchedNodes).2 = .ret none (some "rejected") := rfl
  refine ⟨⟨⟨_, rfl, rfl⟩, ?_⟩, hret, ?_⟩
  · intro j hj s hs
    interval_cases j <;> simp [kubeSteps, kubeDecls] at hs <;> subst hs <;> rfl
  · rw [hret]
    simp

/-- C1 (amended): `LaunchVMs` and `SetupKube` (called with three non-nil nodes) fail fast. If
step `i` of the function, in source order, is the first to return an error `e`, the function
returns `e`, has registered exactly the resources of the steps before `i`, and returns the empty
result: `IncusNodes{}` for `LaunchVMs`; for `SetupKube` an empty non-nil provider when `i` is the
key-file read or one of the ten remote commands, and the pointer returned by
`kubernetes.NewProvider` when `i` is that last call. A nil error is returned only when every
step succeeded. -/
theorem fail_fast :
    (∀ (w : World) (ctx : Context) (i : Nat) (e : Error),
      FirstError w (launchSteps (fileText w "./pulumi_key.pub")) i e →
      LaunchVMs w ctx =
        (ctx.declare (stepDecls ((launchSteps (fileText w "./pulumi_key.pub")).take i)),
          {}, some e)) ∧
    (∀ (w : World) (ctx : Context), (LaunchVMs w ctx).2.2 = none →
      ∀ s ∈ launchSteps (fileText w "./pulumi_key.pub"), s.err w = none) ∧
    (∀ (w : World) (ctx : Context) (m u a : Instance) (i : Nat) (e : Error),
      FirstError w (kubeSteps (fileText w "./pulumi_key") m u a) i e →
      SetupKube w ctx ⟨some m, some u, some a⟩ =
        (ctx.declare (stepDecls ((kubeSteps (fileText w "./pulumi_key") m u a).take i)),
          .ret (if i = 11 then w.failedProvider else some {}) (some e))) ∧
    (∀ (w : World) (ctx : Context) (m u a : Instance) (p : Option Provider),
      (SetupKube w ctx ⟨some m, some u, some a⟩).2 = .ret p none →
      ∀ s ∈ kubeSteps (fileText w "./pulumi_key") m u a, s.err w = none) := by
  refine ⟨?_, ?_, ?_, ?_⟩
  · intro w ctx i e h
    rw [LaunchVMs_eq, firstFailure_of_firstError w _ i e h]
  · intro w ctx h
    rw [LaunchVMs_eq] at h
    cases hf : firstFailure w (launchSteps (fileText w "./pulumi_key.pub")) with
    | some q => simp [hf] at h
    | none => exact (firstFailure_eq_none _ _).1 hf
  · intro w ctx m u a i e h
    rw [SetupKube_eq, firstFailure_of_firstError w _ i e h]
  · intro w ctx m u a p h
    rw [SetupKube_eq] at h
    cases hf : firstFailure w (kubeSteps (fileText w "./pulumi_key") m u a) with
    | some q => simp [hf] at h
    | none => exact (firstFailure_eq_none _ _).1 hf

end IncusKube
